import Mathlib

/-!
# Sharp/JDI memory-LCD driver: pixel reduction, line framing and frame update

A shallow embedding of `display.c`, `power.c` and `spi_comm.c` (with the
declarations of `sharp_drm.h`).

Modelling conventions
* A byte buffer is a `List Nat`; a byte is a natural number below 256.
* `u8` and `u16` values are truncated explicitly (`% 256`, `% 65536`) where the
  C code narrows a wider value.  The `u32` arithmetic on the panel width
  (`(width + 7) / 8`, `(width * 3 + 7) / 8`) and on the frame counter is taken
  modulo 2^32 = 4294967296.  The `int` loop counters `x` and `y` are natural
  numbers: their overflow, on a panel wider or taller than `INT_MAX`, is not
  modelled.
* A store past the end of the line buffer has no defined effect in C: the
  functions that build a line buffer yield `none` there, and the run of the
  caller ends at that point with the flag `oob_store` raised.
* The SPI controller is an explicit state: the list of messages handed to
  `spi_sync`, each with the code it returned.  The code returned by the n-th
  call is supplied by the environment.
* Logging, `usleep_range` and the device mutex have no effect on the values
  computed and are left out.
* The device pointer `sdev` and its `sdev->spi` are not NULL.
* Calls into the GPIO, regulator and timer subsystems change the modelled
  hardware state (line level, enable count, pending flag) and are also appended
  to a trace, `hw_log`, so that "was not driven" can be told from "was driven to
  the level it already had".
-/

namespace SharpDrm

/-! ## Module parameters -/

/-- The module parameters `display.c` reads through `extern` declarations. -/
structure Params where
  /-- Gray level a pixel has to exceed to be lit (`extern uint mono_cutoff`). -/
  mono_cutoff : Nat
  /-- Global inversion flag (`extern bool mono_invert`). -/
  mono_invert : Bool
  /-- Clear the panel on power-off (`extern bool auto_clear`). -/
  auto_clear : Bool := true
  /-- Backlight policy (`extern bool backlit`). -/
  backlit : Bool := false
  /-- Idle monitor enabled (`auto_power_save`, i.e. `g_param_auto_power_save`). -/
  auto_power_save : Bool := false
  /-- Idle timeout in milliseconds (`idle_timeout`, i.e. `g_param_idle_timeout`). -/
  idle_timeout : Nat := 30000
deriving DecidableEq, Repr

/-! ## Pixel reducer -/

/-- Body of `rgb_to_3bit_color`: each channel is thresholded at 127. -/
def rgb_to_3bit_color (rgb_pixel : Nat) : Nat :=
  let r := (rgb_pixel >>> 16) &&& 0xFF
  let g := (rgb_pixel >>> 8) &&& 0xFF
  let b := rgb_pixel &&& 0xFF
  let r_bit := if r > 127 then 1 else 0
  let g_bit := if g > 127 then 1 else 0
  let b_bit := if b > 127 then 1 else 0
  (r_bit <<< 2) ||| (g_bit <<< 1) ||| b_bit

/-- Body of `rgb_to_mono_simple`: luma, threshold against `mono_cutoff`, then the
optional inversion.  `gray` is a `u16`. -/
def rgb_to_mono_simple (p : Params) (rgb_pixel : Nat) : Nat :=
  let r := (rgb_pixel >>> 16) &&& 0xFF
  let g := (rgb_pixel >>> 8) &&& 0xFF
  let b := rgb_pixel &&& 0xFF
  let gray := ((r * 77 + g * 151 + b * 28) >>> 8) % 65536
  let mono := if gray > p.mono_cutoff then 1 else 0
  if p.mono_invert then (if mono = 0 then 1 else 0) else mono

/-! ## Device state -/

/-- The `enum sharp_power_state` of `sharp_drm.h`. -/
inductive sharp_power_state where
  | SHARP_POWER_OFF
  | SHARP_POWER_STANDBY
  | SHARP_POWER_ON
deriving DecidableEq, Repr

open sharp_power_state

/-- The optional GPIO lines of the device. -/
inductive gpio_line where
  | vcom_gpio
  | disp_gpio
  | backlit_gpio
  | reset_gpio
deriving DecidableEq, Repr

/-- The optional power rails of the device. -/
inductive supply where
  | vdd_supply
  | vddio_supply
deriving DecidableEq, Repr

/-- A call into the GPIO, regulator or timer subsystem. -/
inductive hw_event where
  /-- The call `gpiod_set_value` or `gpiod_set_value_cansleep` on a line. -/
  | gpiod_set_value (line : gpio_line) (value : Bool)
  /-- The call `regulator_enable` on a rail, with the code it returned. -/
  | regulator_enable (rail : supply) (ret : Int)
  | regulator_disable (rail : supply)
  /-- The call `mod_timer` on the VCOM timer. -/
  | mod_timer
  /-- The call `del_timer` or `del_timer_sync` on the VCOM timer. -/
  | del_timer
deriving DecidableEq, Repr

/-- The fields of `struct sharp_drm_device` that the driver code reads or writes.
An optional GPIO line is `none` when the descriptor pointer is NULL and
`some level` when present, `level` being the value last driven on it.  An
optional rail is `none` when the regulator pointer is NULL and `some count` when
present, `count` being its enable count. -/
structure sharp_drm_device where
  /-- Panel width in pixels (`u32 width`). -/
  width : Nat
  /-- Panel height in rows (`u32 height`). -/
  height : Nat
  power_state : sharp_power_state
  /-- VCOM polarity (`bool vcom_state`). -/
  vcom_state : Bool
  /-- Number of completed frame updates (`u32 frame_count`). -/
  frame_count : Nat
  vcom_gpio : Option Bool
  backlit_gpio : Option Bool
  backlight_on : Bool
  disp_gpio : Option Bool := none
  reset_gpio : Option Bool := none
  display_on : Bool := false
  vdd_supply : Option Int := none
  vddio_supply : Option Int := none
  /-- Whether the VCOM timer is pending (`timer_pending(&sdev->vcom_timer)`). -/
  vcom_timer_pending : Bool := false
  /-- The delayed work `power_save_work`: `none` when not queued, `some ms` when
  queued to run after `msecs_to_jiffies(ms)`. -/
  power_save_work : Option Nat := none
  /-- Time of the last activity in nanoseconds (`ktime_t last_update`). -/
  last_update : Int := 0
  /-- Size of the SPI buffers (`size_t spi_buf_size`). -/
  spi_buf_size : Nat := 0
  total_spi_bytes : Nat := 0
  total_spi_transfers : Nat := 0
  /-- Trace of the calls into the GPIO, regulator and timer subsystems, oldest first. -/
  hw_log : List hw_event := []
  /-- Raised when a store past the end of a line buffer ended a run. -/
  oob_store : Bool := false
deriving DecidableEq, Repr

/-- The call `gpiod_set_value(line, value)` (or its `_cansleep` form) on a line
that is present: the line takes the level and the call is traced. -/
def gpiod_set_value (sdev : sharp_drm_device) (line : gpio_line) (value : Bool) :
    sharp_drm_device :=
  let sdev := { sdev with hw_log := sdev.hw_log ++ [hw_event.gpiod_set_value line value] }
  match line with
  | gpio_line.vcom_gpio => { sdev with vcom_gpio := some value }
  | gpio_line.disp_gpio => { sdev with disp_gpio := some value }
  | gpio_line.backlit_gpio => { sdev with backlit_gpio := some value }
  | gpio_line.reset_gpio => { sdev with reset_gpio := some value }

/-- The call `regulator_enable` on a rail that is present, the regulator core
returning `ret`: the enable count goes up when `ret` is 0. -/
def regulator_enable (sdev : sharp_drm_device) (rail : supply) (ret : Int) : sharp_drm_device :=
  let sdev := { sdev with hw_log := sdev.hw_log ++ [hw_event.regulator_enable rail ret] }
  if ret = 0 then
    match rail with
    | supply.vdd_supply => { sdev with vdd_supply := sdev.vdd_supply.map (fun c => c + 1) }
    | supply.vddio_supply => { sdev with vddio_supply := sdev.vddio_supply.map (fun c => c + 1) }
  else sdev

/-- The call `regulator_disable` on a rail that is present: the enable count goes down. -/
def regulator_disable (sdev : sharp_drm_device) (rail : supply) : sharp_drm_device :=
  let sdev := { sdev with hw_log := sdev.hw_log ++ [hw_event.regulator_disable rail] }
  match rail with
  | supply.vdd_supply => { sdev with vdd_supply := sdev.vdd_supply.map (fun c => c - 1) }
  | supply.vddio_supply => { sdev with vddio_supply := sdev.vddio_supply.map (fun c => c - 1) }

/-- The call `mod_timer(&sdev->vcom_timer, ...)`: the timer is pending afterwards. -/
def mod_timer (sdev : sharp_drm_device) : sharp_drm_device :=
  { sdev with vcom_timer_pending := true, hw_log := sdev.hw_log ++ [hw_event.mod_timer] }

/-- The call `del_timer` or `del_timer_sync` on the VCOM timer: the timer is not
pending afterwards. -/
def del_timer (sdev : sharp_drm_device) : sharp_drm_device :=
  { sdev with vcom_timer_pending := false, hw_log := sdev.hw_log ++ [hw_event.del_timer] }

/-! ## Bus transport -/

/-- One `struct spi_transfer`: send the first `len` bytes found at `tx_buf`. -/
structure spi_transfer where
  tx_buf : List Nat
  len : Nat
deriving DecidableEq, Repr

/-- A `struct spi_message`: its transfers in queue order, sent as one transaction. -/
abbrev spi_message := List spi_transfer

/-- Bytes one transfer puts on the wire; `none` when `len` runs past the end of
the buffer, where C reads whatever memory follows it. -/
def transfer_bytes (t : spi_transfer) : Option (List Nat) :=
  if t.len ≤ t.tx_buf.length then some (t.tx_buf.take t.len) else none

/-- Bytes a whole message puts on the wire, transfer after transfer. -/
def wire_bytes : spi_message → Option (List Nat)
  | [] => some []
  | t :: ts =>
    match transfer_bytes t, wire_bytes ts with
    | some a, some b => some (a ++ b)
    | _, _ => none

/-- The SPI controller as the driver sees it: every message handed to
`spi_sync` so far, oldest first, with the code that call returned. -/
structure Bus where
  calls : List (spi_message × Int)
deriving DecidableEq, Repr

/-- What the environment decides during a call. -/
structure Env where
  /-- Code returned by the n-th call of `spi_sync` on this bus (0 on success,
  a negative errno on failure). -/
  spi_ret : Nat → Int
  /-- Whether `kzalloc` of the line buffer succeeds. -/
  kzalloc_ok : Bool
  /-- Code returned by `regulator_enable(sdev->vdd_supply)` (0 on success). -/
  vdd_enable_ret : Int := 0
  /-- Code returned by `regulator_enable(sdev->vddio_supply)` (0 on success). -/
  vddio_enable_ret : Int := 0
  /-- The monotonic clock `ktime_get()` in nanoseconds. -/
  ktime : Int := 0

/-- The call `spi_sync(sdev->spi, &msg)`: the message goes to the bus and the
environment supplies the return code. -/
def spi_sync (env : Env) (bus : Bus) (msg : spi_message) : Bus × Int :=
  let ret := env.spi_ret bus.calls.length
  (⟨bus.calls ++ [(msg, ret)]⟩, ret)

/-- State after a call of a driver function, with the value the C function
hands back to its caller: `some code` for an `int` function, `none` for a
`void` one. -/
structure Outcome where
  sdev : sharp_drm_device
  bus : Bus
  ret : Option Int
deriving DecidableEq, Repr

/-! ## Line encoder -/

def JDI_CMD_WRITE_LINE : Nat := 0x80
def JDI_CMD_CLEAR_ALL : Nat := 0x20
def JDI_CMD_NO_UPDATE : Nat := 0x00
def JDI_CMD_VCOM : Nat := 0x40

/-- The errno `EINVAL`. -/
def EINVAL : Int := 22

/-- Body of `jdi_write_color_line`.  `line_num` is a `u16` parameter, the two
address bytes are `u8`, the payload length is `u32` arithmetic; `line_data` is
`none` for a NULL pointer. -/
def jdi_write_color_line (env : Env) (sdev : sharp_drm_device) (bus : Bus)
    (line_num : Nat) (line_data : Option (List Nat)) : Outcome :=
  let line_num := line_num % 65536
  let cmd := 0x80
  let dummy := 0x00
  match line_data with
  | none => ⟨sdev, bus, some (-EINVAL)⟩
  | some line_data =>
    if line_num ≥ sdev.height then ⟨sdev, bus, some (-EINVAL)⟩
    else
      let line_addr0 := (cmd ||| ((line_num + 1) &&& 0x7F)) % 256
      let line_addr1 := (((line_num + 1) >>> 7) &&& 0x07) % 256
      let r := spi_sync env bus
        [⟨[line_addr0, line_addr1], 2⟩,
         ⟨line_data, (sdev.width * 3 + 7) % 4294967296 / 8⟩,
         ⟨[dummy], 1⟩]
      ⟨sdev, r.1, some r.2⟩

/-- Body of `jdi_write_line`.  `line_num` is a `u16` parameter,
`u8 line_addr = line_num + 1`, and the payload length is `u32` arithmetic;
`line_data` is `none` for a NULL pointer. -/
def jdi_write_line (env : Env) (sdev : sharp_drm_device) (bus : Bus)
    (line_num : Nat) (line_data : Option (List Nat)) : Outcome :=
  let line_num := line_num % 65536
  let cmd := JDI_CMD_WRITE_LINE
  let line_addr := (line_num + 1) % 256
  let dummy := 0x00
  match line_data with
  | none => ⟨sdev, bus, some (-EINVAL)⟩
  | some line_data =>
    if line_num ≥ sdev.height then ⟨sdev, bus, some (-EINVAL)⟩
    else
      let r := spi_sync env bus
        [⟨[cmd], 1⟩,
         ⟨[line_addr], 1⟩,
         ⟨line_data, (sdev.width + 7) % 4294967296 / 8⟩,
         ⟨[dummy], 1⟩]
      ⟨sdev, r.1, some r.2⟩

/-- Body of `sharp_drm_clear_display`. -/
def sharp_drm_clear_display (env : Env) (sdev : sharp_drm_device) (bus : Bus) : Outcome :=
  let cmd := JDI_CMD_CLEAR_ALL
  let dummy := 0x00
  let r := spi_sync env bus [⟨[cmd], 1⟩, ⟨[dummy], 1⟩]
  ⟨sdev, r.1, none⟩

/-! ## Frame driver -/

def DRM_FORMAT_XRGB8888 : Nat := 0x34325258
def DRM_FORMAT_ARGB8888 : Nat := 0x34325241
def DRM_FORMAT_RGB565 : Nat := 0x36314752

/-- The parts of `struct drm_framebuffer` and of its DMA object that the update
reads.  `vaddr` is `none` when `drm_fb_dma_get_gem_obj` gives no object or the
object has no mapping; otherwise `vaddr y x` is element `x` of the array that
starts at `vaddr + y * pitch`, read with the element type the format selects. -/
structure drm_framebuffer where
  width : Nat
  height : Nat
  /-- The fourcc tag `fb->format->format`. -/
  format : Nat
  vaddr : Option (Nat → Nat → Nat)

/-- The `switch (fb->format->format)` of the update: the 24-bit pixel decoded
from one element `s` of the row. -/
def extract_pixel (format : Nat) (s : Nat) : Nat :=
  if format = DRM_FORMAT_XRGB8888 ∨ format = DRM_FORMAT_ARGB8888 then
    (s % 2 ^ 32) &&& 0xFFFFFF
  else if format = DRM_FORMAT_RGB565 then
    let rgb565 := s % 65536
    let r := (((rgb565 >>> 11) &&& 0x1F) * 255 / 31) % 256
    let g := (((rgb565 >>> 5) &&& 0x3F) * 255 / 63) % 256
    let b := ((rgb565 &&& 0x1F) * 255 / 31) % 256
    (r <<< 16) ||| (g <<< 8) ||| b
  else
    let gray := s % 256
    (gray <<< 16) ||| (gray <<< 8) ||| gray

/-- The statement `line_buffer[byte_idx] |= (1 << bit_idx)` on a buffer that has
a byte at `byte_idx`. -/
def set_bit (line_buffer : List Nat) (byte_idx bit_idx : Nat) : List Nat :=
  line_buffer.modify (fun v => v ||| (1 <<< bit_idx)) byte_idx

/-- The statement `line_buffer[byte_idx] |= (1 << bit_idx)` with nothing known
about `byte_idx`: `none` when the store lands past the end of the buffer. -/
def store_bit (line_buffer : List Nat) (byte_idx bit_idx : Nat) : Option (List Nat) :=
  if byte_idx < line_buffer.length then some (set_bit line_buffer byte_idx bit_idx) else none

/-- One pass of the inner `x` loop of the update; `mono_pixel x` is the value
`rgb_to_mono_simple` returned for column `x`.  The buffer is `none` once a store
has left it. -/
def pack_pixel (mono_pixel : Nat → Nat) (line_buffer : Option (List Nat)) (x : Nat) :
    Option (List Nat) :=
  match line_buffer with
  | none => none
  | some line_buffer =>
    let byte_idx := x / 8
    let bit_idx := 7 - (x % 8)
    if mono_pixel x ≠ 0 then store_bit line_buffer byte_idx bit_idx else some line_buffer

/-- The line buffer of `bytes_per_line = (width + 7) / 8` bytes (`u32`
arithmetic) after `memset(line_buffer, 0, bytes_per_line)` and the inner loop
`for (x = 0; x < width; x++)`. -/
def pack_line (width : Nat) (mono_pixel : Nat → Nat) : Option (List Nat) :=
  let bytes_per_line := (width + 7) % 4294967296 / 8
  (List.range width).foldl (pack_pixel mono_pixel) (some (List.replicate bytes_per_line 0))

/-- The line buffer the update builds for row `y` of the mapped pixels `px`. -/
def update_line (p : Params) (format : Nat) (px : Nat → Nat → Nat) (width y : Nat) :
    Option (List Nat) :=
  pack_line width (fun x => rgb_to_mono_simple p (extract_pixel format (px y x)))

/-- The loop `for (y = 0; y < height; y++)` of the update with `n` rows still to
go from row `y`; the result carries the bus, the last value of `ret`, and
whether the run ended at a store past the line buffer.  The loop is left at the
first row whose write returns a negative code. -/
def update_rows (p : Params) (env : Env) (sdev : sharp_drm_device) (format : Nat)
    (px : Nat → Nat → Nat) (width : Nat) : Nat → Nat → Int → Bus → Bus × Int × Bool
  | 0, _, ret, bus => (bus, ret, false)
  | n + 1, y, ret, bus =>
    match update_line p format px width y with
    | none => (bus, ret, true)
    | some line_buffer =>
      let r := jdi_write_line env sdev bus y (some line_buffer)
      let ret := r.ret.getD 0
      if ret < 0 then (r.bus, ret, false)
      else update_rows p env sdev format px width n (y + 1) ret r.bus

/-- Body of `sharp_drm_update_display`; `fb` is `none` for a NULL pointer.  The
frame counter is a `u32`. -/
def sharp_drm_update_display (p : Params) (env : Env) (sdev : sharp_drm_device) (bus : Bus)
    (fb : Option drm_framebuffer) : Outcome :=
  match fb with
  | none => ⟨sdev, bus, none⟩
  | some fb =>
    if sdev.power_state ≠ SHARP_POWER_ON then ⟨sdev, bus, none⟩
    else
      match fb.vaddr with
      | none => ⟨sdev, bus, none⟩
      | some px =>
        let width := min fb.width sdev.width
        let height := min fb.height sdev.height
        if env.kzalloc_ok = false then ⟨sdev, bus, none⟩
        else
          let r := update_rows p env sdev fb.format px width height 0 0 bus
          if r.2.2 = true then ⟨{ sdev with oob_store := true }, r.1, none⟩
          else if r.2.1 ≥ 0 then
            ⟨{ sdev with frame_count := (sdev.frame_count + 1) % 4294967296 }, r.1, none⟩
          else ⟨sdev, r.1, none⟩

/-- Body of `sharp_drm_toggle_vcom`; the result of `spi_sync` is dropped. -/
def sharp_drm_toggle_vcom (env : Env) (sdev : sharp_drm_device) (bus : Bus) : Outcome :=
  let sdev := { sdev with vcom_state := !sdev.vcom_state }
  let sdev :=
    match sdev.vcom_gpio with
    | some _ => gpiod_set_value sdev gpio_line.vcom_gpio sdev.vcom_state
    | none => sdev
  if sdev.power_state = SHARP_POWER_ON then
    let cmd := (JDI_CMD_VCOM ||| (if sdev.vcom_state then 0x40 else 0x00)) % 256
    let dummy := 0x00
    let r := spi_sync env bus [⟨[cmd], 1⟩, ⟨[dummy], 1⟩]
    ⟨sdev, r.1, none⟩
  else ⟨sdev, bus, none⟩

/-- Body of `sharp_drm_set_backlight`. -/
def sharp_drm_set_backlight (sdev : sharp_drm_device) (bus : Bus) (on_ : Bool) : Outcome :=
  match sdev.backlit_gpio with
  | some _ =>
    ⟨{ gpiod_set_value sdev gpio_line.backlit_gpio on_ with backlight_on := on_ }, bus, none⟩
  | none => ⟨sdev, bus, none⟩

/-- The line buffer `sharp_drm_test_pattern` builds for row `y`: the `memset` to
zero followed by the `switch (pattern)`, with `bytes_per_line = (width + 7) / 8`
in `u32` arithmetic.  The stores of the stripe and checkerboard patterns and of
the right border are guarded by the code; the store of the left border is not,
and yields `none` when the buffer has no byte 0. -/
def test_pattern_line (sdev : sharp_drm_device) (pattern : Int) (y : Nat) : Option (List Nat) :=
  let bytes_per_line := (sdev.width + 7) % 4294967296 / 8
  let line_buffer := List.replicate bytes_per_line 0
  if pattern = 0 then some (List.replicate bytes_per_line 0xFF)
  else if pattern = 1 then
    if y % 2 = 0 then some (List.replicate bytes_per_line 0xFF) else some line_buffer
  else if pattern = 2 then
    some (((List.range ((sdev.width + 1) / 2)).map (fun i => 2 * i)).foldl
      (fun buf x => if x / 8 < bytes_per_line then set_bit buf (x / 8) (7 - (x % 8)) else buf)
      line_buffer)
  else if pattern = 3 then
    some ((List.range sdev.width).foldl
      (fun buf x =>
        if (x + y) % 2 = 0 then
          (if x / 8 < bytes_per_line then set_bit buf (x / 8) (7 - (x % 8)) else buf)
        else buf)
      line_buffer)
  else
    if y = 0 ∨ y = sdev.height - 1 then some (List.replicate bytes_per_line 0xFF)
    else
      match store_bit line_buffer 0 7 with
      | none => none
      | some line_buffer =>
        if bytes_per_line > 1 then
          let last_byte := bytes_per_line - 1
          let last_bit := 7 - ((sdev.width - 1) % 8)
          some (set_bit line_buffer last_byte last_bit)
        else some line_buffer

/-- The loop `for (y = 0; y < sdev->height; y++)` of the test pattern with `n`
rows still to go from row `y`; the result of each line write is dropped.  The
result carries the bus and whether the run ended at a store past the line buffer. -/
def test_pattern_rows (env : Env) (sdev : sharp_drm_device) (pattern : Int) :
    Nat → Nat → Bus → Bus × Bool
  | 0, _, bus => (bus, false)
  | n + 1, y, bus =>
    match test_pattern_line sdev pattern y with
    | none => (bus, true)
    | some line_buffer =>
      let r := jdi_write_line env sdev bus y (some line_buffer)
      test_pattern_rows env sdev pattern n (y + 1) r.bus

/-- Body of `sharp_drm_test_pattern`. -/
def sharp_drm_test_pattern (env : Env) (sdev : sharp_drm_device) (bus : Bus)
    (pattern : Int) : Outcome :=
  if sdev.power_state ≠ SHARP_POWER_ON then ⟨sdev, bus, none⟩
  else if env.kzalloc_ok = false then ⟨sdev, bus, none⟩
  else
    let r := test_pattern_rows env sdev pattern sdev.height 0 bus
    if r.2 = true then ⟨{ sdev with oob_store := true }, r.1, none⟩
    else ⟨sdev, r.1, none⟩

/-! ## Bus transport: `spi_comm.c` -/

def SHARP_CMD_WRITE : Nat := 0x80

/-- Body of `sharp_spi_write_command`; `cmd` is a `u8`. -/
def sharp_spi_write_command (env : Env) (sdev : sharp_drm_device) (bus : Bus) (cmd : Nat) :
    Outcome :=
  let cmd := cmd % 256
  let r := spi_sync env bus [⟨[cmd], 1⟩]
  ⟨sdev, r.1, some r.2⟩

/-- Body of `sharp_spi_write_data`; `data` is `none` for a NULL pointer. -/
def sharp_spi_write_data (env : Env) (sdev : sharp_drm_device) (bus : Bus)
    (data : Option (List Nat)) (len : Nat) : Outcome :=
  match data with
  | none => ⟨sdev, bus, some (-EINVAL)⟩
  | some data =>
    if len > sdev.spi_buf_size then ⟨sdev, bus, some (-EINVAL)⟩
    else
      let r := spi_sync env bus [⟨data, len⟩]
      ⟨sdev, r.1, some r.2⟩

/-- Body of `sharp_spi_write_display_bulk`; `data` is `none` for a NULL pointer. -/
def sharp_spi_write_display_bulk (env : Env) (sdev : sharp_drm_device) (bus : Bus)
    (data : Option (List Nat)) (len : Nat) : Outcome :=
  match data with
  | none => ⟨sdev, bus, some (-EINVAL)⟩
  | some data =>
    let r := spi_sync env bus [⟨[SHARP_CMD_WRITE], 1⟩, ⟨data, len⟩]
    ⟨sdev, r.1, some r.2⟩

/-- Body of `sharp_spi_get_stats` with both out-pointers given: the values
stored through `total_bytes` and `total_transfers`. -/
def sharp_spi_get_stats (sdev : sharp_drm_device) : Nat × Nat :=
  (sdev.total_spi_bytes, sdev.total_spi_transfers)

/-- Body of `sharp_spi_reset_stats`. -/
def sharp_spi_reset_stats (sdev : sharp_drm_device) : sharp_drm_device :=
  { sdev with total_spi_bytes := 0, total_spi_transfers := 0 }

/-! ## Power state machine: `power.c` -/

/-- The call `schedule_delayed_work(&sdev->power_save_work, msecs_to_jiffies(ms))`:
a work that is already queued keeps its place, otherwise it is queued. -/
def schedule_delayed_work (sdev : sharp_drm_device) (ms : Nat) : sharp_drm_device :=
  match sdev.power_save_work with
  | some _ => sdev
  | none => { sdev with power_save_work := some ms }

/-- The call `cancel_delayed_work(&sdev->power_save_work)` or its `_sync` form. -/
def cancel_delayed_work (sdev : sharp_drm_device) : sharp_drm_device :=
  { sdev with power_save_work := none }

/-- Body of `sharp_drm_power_on`. -/
def sharp_drm_power_on (p : Params) (env : Env) (sdev : sharp_drm_device) (bus : Bus) :
    Outcome :=
  if sdev.power_state = SHARP_POWER_ON then ⟨sdev, bus, some 0⟩
  else
    let r1 : sharp_drm_device × Int :=
      match sdev.vdd_supply with
      | some _ => (regulator_enable sdev supply.vdd_supply env.vdd_enable_ret, env.vdd_enable_ret)
      | none => (sdev, 0)
    if r1.2 ≠ 0 then ⟨r1.1, bus, some r1.2⟩
    else
      let sdev := r1.1
      let r2 : sharp_drm_device × Int :=
        match sdev.vddio_supply with
        | some _ =>
          (regulator_enable sdev supply.vddio_supply env.vddio_enable_ret, env.vddio_enable_ret)
        | none => (sdev, r1.2)
      if r2.2 ≠ 0 then
        let sdev := r2.1
        let sdev :=
          match sdev.vdd_supply with
          | some _ => regulator_disable sdev supply.vdd_supply
          | none => sdev
        ⟨sdev, bus, some r2.2⟩
      else
        let sdev := r2.1
        let sdev :=
          match sdev.reset_gpio with
          | some _ => gpiod_set_value sdev gpio_line.reset_gpio false
          | none => sdev
        let sdev :=
          match sdev.disp_gpio with
          | some _ => { gpiod_set_value sdev gpio_line.disp_gpio true with display_on := true }
          | none => sdev
        let sdev :=
          if sdev.backlit_gpio.isSome ∧ p.backlit = true then
            { gpiod_set_value sdev gpio_line.backlit_gpio true with backlight_on := true }
          else sdev
        let sdev := if sdev.vcom_timer_pending then del_timer sdev else sdev
        let sdev := mod_timer sdev
        ⟨{ sdev with power_state := SHARP_POWER_ON }, bus, some 0⟩

/-- Body of `sharp_drm_power_off`. -/
def sharp_drm_power_off (p : Params) (env : Env) (sdev : sharp_drm_device) (bus : Bus) :
    Outcome :=
  if sdev.power_state = SHARP_POWER_OFF then ⟨sdev, bus, some 0⟩
  else
    let sdev := del_timer sdev
    let bus :=
      if p.auto_clear = true ∧ sdev.power_state = SHARP_POWER_ON then
        (sharp_drm_clear_display env sdev bus).bus
      else bus
    let sdev :=
      match sdev.backlit_gpio with
      | some _ => { gpiod_set_value sdev gpio_line.backlit_gpio false with backlight_on := false }
      | none => sdev
    let sdev :=
      match sdev.disp_gpio with
      | some _ => { gpiod_set_value sdev gpio_line.disp_gpio false with display_on := false }
      | none => sdev
    let sdev :=
      match sdev.reset_gpio with
      | some _ => gpiod_set_value sdev gpio_line.reset_gpio true
      | none => sdev
    let sdev :=
      match sdev.vddio_supply with
      | some _ => regulator_disable sdev supply.vddio_supply
      | none => sdev
    let sdev :=
      match sdev.vdd_supply with
      | some _ => regulator_disable sdev supply.vdd_supply
      | none => sdev
    ⟨{ sdev with power_state := SHARP_POWER_OFF }, bus, some 0⟩

/-- Body of `sharp_drm_power_standby`. -/
def sharp_drm_power_standby (sdev : sharp_drm_device) (bus : Bus) : Outcome :=
  if sdev.power_state = SHARP_POWER_STANDBY then ⟨sdev, bus, some 0⟩
  else
    let sdev := del_timer sdev
    let sdev :=
      if sdev.backlit_gpio.isSome ∧ sdev.backlight_on = true then
        gpiod_set_value sdev gpio_line.backlit_gpio false
      else sdev
    ⟨{ sdev with power_state := SHARP_POWER_STANDBY }, bus, some 0⟩

/-- Body of `sharp_drm_power_resume`. -/
def sharp_drm_power_resume (p : Params) (sdev : sharp_drm_device) (bus : Bus) : Outcome :=
  if sdev.power_state ≠ SHARP_POWER_STANDBY then ⟨sdev, bus, some 0⟩
  else
    let sdev :=
      if sdev.backlit_gpio.isSome ∧ p.backlit = true then
        gpiod_set_value sdev gpio_line.backlit_gpio true
      else sdev
    let sdev := mod_timer sdev
    ⟨{ sdev with power_state := SHARP_POWER_ON }, bus, some 0⟩

/-- The value `ktime_to_ms(ktime_sub(now, sdev->last_update))` stored in the `u64`
`idle_time_ms`: signed division truncating toward zero, then the conversion to
an unsigned 64-bit value. -/
def idle_time_ms (now last_update : Int) : Nat :=
  ((Int.tdiv (now - last_update) 1000000) % 2 ^ 64).toNat

/-- Body of `sharp_auto_power_save_work`, the function of the delayed work
`power_save_work`. -/
def sharp_auto_power_save_work (p : Params) (env : Env) (sdev : sharp_drm_device) (bus : Bus) :
    Outcome :=
  let now := env.ktime
  if p.auto_power_save = false ∨ sdev.power_state ≠ SHARP_POWER_ON then ⟨sdev, bus, none⟩
  else
    if idle_time_ms now sdev.last_update > p.idle_timeout then
      let r := sharp_drm_power_standby sdev bus
      ⟨r.sdev, r.bus, none⟩
    else
      ⟨schedule_delayed_work sdev (p.idle_timeout / 4), bus, none⟩

/-- Body of `sharp_drm_power_cleanup`. -/
def sharp_drm_power_cleanup (p : Params) (env : Env) (sdev : sharp_drm_device) (bus : Bus) :
    Outcome :=
  let r := sharp_drm_power_off p env (cancel_delayed_work sdev) bus
  ⟨r.sdev, r.bus, none⟩

/-- Body of `sharp_drm_power_start_monitor`. -/
def sharp_drm_power_start_monitor (p : Params) (sdev : sharp_drm_device) (bus : Bus) : Outcome :=
  if p.auto_power_save = true ∧ sdev.power_state = SHARP_POWER_ON then
    ⟨schedule_delayed_work sdev (p.idle_timeout / 4), bus, none⟩
  else ⟨sdev, bus, none⟩

/-- Body of `sharp_drm_power_stop_monitor`. -/
def sharp_drm_power_stop_monitor (sdev : sharp_drm_device) (bus : Bus) : Outcome :=
  ⟨cancel_delayed_work sdev, bus, none⟩

/-- Body of `sharp_drm_power_update_activity`. -/
def sharp_drm_power_update_activity (p : Params) (env : Env) (sdev : sharp_drm_device)
    (bus : Bus) : Outcome :=
  let sdev := { sdev with last_update := env.ktime }
  let r : Outcome :=
    if sdev.power_state = SHARP_POWER_STANDBY then sharp_drm_power_resume p sdev bus
    else ⟨sdev, bus, some 0⟩
  let sdev := r.sdev
  let sdev :=
    if p.auto_power_save = true then
      schedule_delayed_work (cancel_delayed_work sdev) (p.idle_timeout / 4)
    else sdev
  ⟨sdev, r.bus, none⟩

/-! ## Sequences of calls -/

/-- A call of one of the driver's entry points. -/
inductive driver_call where
  | power_on
  | power_off
  | standby
  | resume
  | update_activity
  | update (fb : Option drm_framebuffer)
  | clear
  | toggle_vcom

/-- One call, made in the environment `c.1`, on the device and bus `st`. -/
def apply_call (p : Params) (st : sharp_drm_device × Bus) (c : Env × driver_call) :
    sharp_drm_device × Bus :=
  let r : Outcome :=
    match c.2 with
    | driver_call.power_on => sharp_drm_power_on p c.1 st.1 st.2
    | driver_call.power_off => sharp_drm_power_off p c.1 st.1 st.2
    | driver_call.standby => sharp_drm_power_standby st.1 st.2
    | driver_call.resume => sharp_drm_power_resume p st.1 st.2
    | driver_call.update_activity => sharp_drm_power_update_activity p c.1 st.1 st.2
    | driver_call.update fb => sharp_drm_update_display p c.1 st.1 st.2 fb
    | driver_call.clear => sharp_drm_clear_display c.1 st.1 st.2
    | driver_call.toggle_vcom => sharp_drm_toggle_vcom c.1 st.1 st.2
  (r.sdev, r.bus)

/-- A finite sequence of calls, first call first. -/
def run_calls (p : Params) (st : sharp_drm_device × Bus) (cs : List (Env × driver_call)) :
    sharp_drm_device × Bus :=
  cs.foldl (apply_call p) st

/-! ## Terms used in the statements -/

/-- The monochrome message for row `row` and buffer `line`: command, address,
payload and trailer transfers. -/
def mono_line_message (sdev : sharp_drm_device) (row : Nat) (line : List Nat) : spi_message :=
  [⟨[0x80], 1⟩, ⟨[(row + 1) % 256], 1⟩, ⟨line, (sdev.width + 7) % 4294967296 / 8⟩,
   ⟨[0x00], 1⟩]

/-- The colour message for row `row` and buffer `line`: address pair, payload
and trailer transfers. -/
def color_line_message (sdev : sharp_drm_device) (row : Nat) (line : List Nat) : spi_message :=
  [⟨[0x80 ||| ((row + 1) &&& 0x7F), ((row + 1) >>> 7) &&& 0x07], 2⟩,
   ⟨line, (sdev.width * 3 + 7) % 4294967296 / 8⟩, ⟨[0x00], 1⟩]

/-- Pixel `x` read back from a packed line, most significant bit first: bit
`7 - x % 8` of byte `x / 8` (0 past the end of the buffer). -/
def line_bit (line_buffer : List Nat) (x : Nat) : Nat :=
  ((line_buffer.getD (x / 8) 0) >>> (7 - x % 8)) % 2

/-- One column of a row packed most significant bit first, on a buffer that
holds the column's byte: the bit of column `x` is set when the column is lit. -/
def packed_pixel (mono_pixel : Nat → Nat) (line_buffer : List Nat) (x : Nat) : List Nat :=
  if mono_pixel x ≠ 0 then set_bit line_buffer (x / 8) (7 - (x % 8)) else line_buffer

/-- The row of `width` reduced pixels packed most significant bit first into
ceil(width/8) bytes: the buffer `pack_line` yields when `width + 7 < 2^32`. -/
def packed_line (width : Nat) (mono_pixel : Nat → Nat) : List Nat :=
  (List.range width).foldl (packed_pixel mono_pixel) (List.replicate ((width + 7) / 8) 0)

/-- Row `y` of the mapped pixels `px`, reduced and packed: the buffer
`update_line` yields when `width + 7 < 2^32`. -/
def packed_row (p : Params) (format : Nat) (px : Nat → Nat → Nat) (width y : Nat) : List Nat :=
  packed_line width (fun x => rgb_to_mono_simple p (extract_pixel format (px y x)))

/-- The bus records of the line writes of rows `y, y+1, .., y+n-1` of an update,
when the bus already holds `base` records: message and the code `spi_sync` returns. -/
def update_records (p : Params) (env : Env) (sdev : sharp_drm_device) (format : Nat)
    (px : Nat → Nat → Nat) (width base y n : Nat) : List (spi_message × Int) :=
  (List.range n).map (fun i =>
    (mono_line_message sdev (y + i) ((update_line p format px width (y + i)).getD []),
      env.spi_ret (base + i)))

/-- The bus records of the line writes of rows `y, y+1, .., y+n-1` of a test
pattern, when the bus already holds `base` records. -/
def pattern_records (env : Env) (sdev : sharp_drm_device) (pattern : Int) (base y n : Nat) :
    List (spi_message × Int) :=
  (List.range n).map (fun i =>
    (mono_line_message sdev (y + i) ((test_pattern_line sdev pattern (y + i)).getD []),
      env.spi_ret (base + i)))

/-- The VCOM timer is armed exactly in state ON. -/
def timer_matches_state (sdev : sharp_drm_device) : Prop :=
  sdev.vcom_timer_pending = true ↔ sdev.power_state = SHARP_POWER_ON

instance (sdev : sharp_drm_device) : Decidable (timer_matches_state sdev) := by
  unfold timer_matches_state
  infer_instance

/-- Both rails present and balanced with the power state: enable counts 0 in
state OFF, enable counts 1 in state ON. -/
def rails_balanced (sdev : sharp_drm_device) : Prop :=
  (sdev.power_state = SHARP_POWER_OFF ∧ sdev.vdd_supply = some 0 ∧
    sdev.vddio_supply = some 0) ∨
  (sdev.power_state = SHARP_POWER_ON ∧ sdev.vdd_supply = some 1 ∧
    sdev.vddio_supply = some 1)

instance (sdev : sharp_drm_device) : Decidable (rails_balanced sdev) := by
  unfold rails_balanced
  infer_instance

/-! # Theorems -/

/-! ## Hardware calls: lemmas -/

/-- Driving a GPIO line leaves the power state alone. -/
@[simp] theorem gpiod_set_value_power_state (sdev : sharp_drm_device) (line : gpio_line)
    (value : Bool) : (gpiod_set_value sdev line value).power_state = sdev.power_state := by
  cases line <;> rfl

/-- Driving a GPIO line leaves the VCOM polarity alone. -/
@[simp] theorem gpiod_set_value_vcom_state (sdev : sharp_drm_device) (line : gpio_line)
    (value : Bool) : (gpiod_set_value sdev line value).vcom_state = sdev.vcom_state := by
  cases line <;> rfl

/-! ## Pixel reducer: lemmas -/

/-- A pixel assembled from three 8-bit channels is their base-256 numeral. -/
theorem rgb_compose (R G B : Nat) (hG : G < 256) (hB : B < 256) :
    (R <<< 16) ||| (G <<< 8) ||| B = R * 65536 + G * 256 + B := by
  have h1 : 2 ^ 8 * G + B = 2 ^ 8 * G ||| B := Nat.mul_add_lt_is_or (by omega) G
  have h2 : 2 ^ 16 * R + (2 ^ 8 * G + B) = 2 ^ 16 * R ||| (2 ^ 8 * G + B) :=
    Nat.mul_add_lt_is_or (by omega) R
  rw [Nat.lor_assoc, Nat.shiftLeft_eq, Nat.shiftLeft_eq, Nat.mul_comm R, Nat.mul_comm G,
    ← h1, ← h2]
  omega

/-- The mask `& 0xFF` keeps the low byte. -/
theorem and_0xFF (n : Nat) : n &&& 0xFF = n % 256 :=
  Nat.and_pow_two_sub_one_eq_mod n 8

/-- The three channels `rgb_to_mono_simple` extracts from an assembled pixel. -/
theorem rgb_channels (R G B : Nat) (hR : R < 256) (hG : G < 256) (hB : B < 256) :
    ((((R <<< 16) ||| (G <<< 8) ||| B) >>> 16) &&& 0xFF = R) ∧
    ((((R <<< 16) ||| (G <<< 8) ||| B) >>> 8) &&& 0xFF = G) ∧
    (((R <<< 16) ||| (G <<< 8) ||| B) &&& 0xFF = B) := by
  rw [rgb_compose R G B hG hB]
  simp only [and_0xFF, Nat.shiftRight_eq_div_pow]
  refine ⟨?_, ?_, ?_⟩ <;> omega

/-- C1. For every 24-bit pixel (R, G, B) and every cutoff, with inversion off
`rgb_to_mono_simple` returns 1 exactly when `gray = (R*77 + G*151 + B*28) >> 8`
is strictly greater than the cutoff and 0 otherwise; with inversion on it
returns the opposite bit. -/
theorem rgb_to_mono_simple_strict_threshold (p : Params) (R G B : Nat)
    (hR : R < 256) (hG : G < 256) (hB : B < 256) :
    (p.mono_invert = false →
      rgb_to_mono_simple p ((R <<< 16) ||| (G <<< 8) ||| B)
        = if (R * 77 + G * 151 + B * 28) >>> 8 > p.mono_cutoff then 1 else 0) ∧
    (p.mono_invert = true →
      rgb_to_mono_simple p ((R <<< 16) ||| (G <<< 8) ||| B)
        = if (R * 77 + G * 151 + B * 28) >>> 8 > p.mono_cutoff then 0 else 1) := by
  obtain ⟨hr, hg, hb⟩ := rgb_channels R G B hR hG hB
  have hgray : ((R * 77 + G * 151 + B * 28) >>> 8) % 65536
      = (R * 77 + G * 151 + B * 28) >>> 8 := by
    rw [Nat.shiftRight_eq_div_pow]; omega
  constructor
  · intro hinv
    simp only [rgb_to_mono_simple, hr, hg, hb, hgray, hinv]
    simp
  · intro hinv
    simp only [rgb_to_mono_simple, hr, hg, hb, hgray, hinv]
    by_cases h : (R * 77 + G * 151 + B * 28) >>> 8 > p.mono_cutoff <;> simp [h]

/-- C1 witness, at the boundary: with cutoff 127 and no inversion the pixel
(127, 127, 127), of gray 127, is dark and the pixel (128, 128, 128), of gray 128, is lit. -/
theorem rgb_to_mono_simple_strict_threshold_witness :
    rgb_to_mono_simple { mono_cutoff := 127, mono_invert := false }
          ((127 <<< 16) ||| (127 <<< 8) ||| 127)
        = (if (127 * 77 + 127 * 151 + 127 * 28) >>> 8 > 127 then 1 else 0) ∧
    rgb_to_mono_simple { mono_cutoff := 127, mono_invert := false }
          ((128 <<< 16) ||| (128 <<< 8) ||| 128)
        = (if (128 * 77 + 128 * 151 + 128 * 28) >>> 8 > 127 then 1 else 0) :=
  ⟨(rgb_to_mono_simple_strict_threshold { mono_cutoff := 127, mono_invert := false } 127 127 127
      (by decide) (by decide) (by decide)).1 rfl,
   (rgb_to_mono_simple_strict_threshold { mono_cutoff := 127, mono_invert := false } 128 128 128
      (by decide) (by decide) (by decide)).1 rfl⟩

/-! ## Line encoder: lemmas -/

/-- A line write for a row below the panel height hands exactly one message to the bus. -/
theorem jdi_write_line_eq (env : Env) (sdev : sharp_drm_device) (bus : Bus) (row : Nat)
    (line : List Nat) (h : row < sdev.height) :
    jdi_write_line env sdev bus row (some line) =
      ⟨sdev, ⟨bus.calls ++ [(mono_line_message sdev row line, env.spi_ret bus.calls.length)]⟩,
        some (env.spi_ret bus.calls.length)⟩ := by
  have h1 : ¬ (row % 65536 ≥ sdev.height) := by
    have := Nat.mod_le row 65536
    omega
  have h2 : (row % 65536 + 1) % 256 = (row + 1) % 256 := by omega
  simp only [jdi_write_line, h1, if_false, h2, spi_sync, mono_line_message, JDI_CMD_WRITE_LINE]

/-- Wire bytes of a monochrome line message whose buffer holds the payload. -/
theorem wire_bytes_mono_line_message (sdev : sharp_drm_device) (row : Nat) (line : List Nat)
    (h : (sdev.width + 7) % 4294967296 / 8 ≤ line.length) :
    wire_bytes (mono_line_message sdev row line) =
      some ([0x80, (row + 1) % 256] ++ line.take ((sdev.width + 7) % 4294967296 / 8)
        ++ [0x00]) := by
  simp [wire_bytes, mono_line_message, transfer_bytes, h]

/-- C2 (as amended). For every panel width with width + 7 < 2^32, every row
below the panel height and every line buffer holding at least ceil(width/8)
bytes, `jdi_write_line` hands the bus one message whose bytes are: the command
byte 0x80, a separate address byte (row+1) mod 256, the ceil(width/8) payload
bytes, and the trailer 0x00; ceil(width/8)+3 bytes in all. -/
theorem jdi_write_line_frame (env : Env) (sdev : sharp_drm_device) (bus : Bus) (row : Nat)
    (line : List Nat) (hw : sdev.width + 7 < 4294967296) (hrow : row < sdev.height)
    (hlen : (sdev.width + 7) / 8 ≤ line.length) :
    ∃ msg,
      (jdi_write_line env sdev bus row (some line)).bus.calls
        = bus.calls ++ [(msg, env.spi_ret bus.calls.length)] ∧
      wire_bytes msg
        = some ([0x80] ++ [(row + 1) % 256] ++ line.take ((sdev.width + 7) / 8) ++ [0x00]) ∧
      ([0x80] ++ [(row + 1) % 256] ++ line.take ((sdev.width + 7) / 8) ++ [0x00]).length
        = (sdev.width + 7) / 8 + 3 ∧
      sdev.width ≤ 8 * ((sdev.width + 7) / 8) ∧ 8 * ((sdev.width + 7) / 8) < sdev.width + 8 := by
  refine ⟨mono_line_message sdev row line, ?_, ?_, ?_, ?_, ?_⟩
  · rw [jdi_write_line_eq env sdev bus row line hrow]
  · rw [wire_bytes_mono_line_message sdev row line (by rw [Nat.mod_eq_of_lt hw]; exact hlen),
      Nat.mod_eq_of_lt hw]
    rfl
  · simp [List.length_take, hlen]
  · omega
  · omega

/-- C2 witness: row 126 of the default 400x240 panel, a 50-byte line. -/
theorem jdi_write_line_frame_witness :
    ∃ msg,
      (jdi_write_line { spi_ret := fun _ => 0, kzalloc_ok := true }
          { width := 400, height := 240, power_state := SHARP_POWER_ON, vcom_state := false,
            frame_count := 0, vcom_gpio := none, backlit_gpio := none, backlight_on := false }
          ⟨[]⟩ 126 (some (List.replicate 50 0xFF))).bus.calls
        = [] ++ [(msg, 0)] ∧
      wire_bytes msg
        = some ([0x80] ++ [(126 + 1) % 256] ++ (List.replicate 50 0xFF).take ((400 + 7) / 8)
            ++ [0x00]) ∧
      ([0x80] ++ [(126 + 1) % 256] ++ (List.replicate 50 0xFF).take ((400 + 7) / 8)
            ++ [0x00]).length = (400 + 7) / 8 + 3 ∧
      400 ≤ 8 * ((400 + 7) / 8) ∧ 8 * ((400 + 7) / 8) < 400 + 8 :=
  jdi_write_line_frame { spi_ret := fun _ => 0, kzalloc_ok := true }
    { width := 400, height := 240, power_state := SHARP_POWER_ON, vcom_state := false,
      frame_count := 0, vcom_gpio := none, backlit_gpio := none, backlight_on := false }
    ⟨[]⟩ 126 (List.replicate 50 0xFF) (by decide) (by decide) (by decide)

/-- C2 (as stated) fails. Row 0 of an 8x1 panel with line buffer [0xAA] goes out
as the four bytes 0x80, 0x01, 0xAA, 0x00, not as the three bytes
0x80|((0+1)&0x7F), 0xAA, 0x00; row 127 of a 128-row panel carries the address
byte 0x80, which the mask 0x7F would turn into 0; and on a panel of width
4294967295 the payload length (width + 7) / 8 wraps to 0, so the message is the
three bytes 0x80, 0x01, 0x00 with no payload at all, where ceil(width/8) is
536870912. -/
theorem jdi_write_line_single_byte_counterexample :
    ((jdi_write_line { spi_ret := fun _ => 0, kzalloc_ok := true }
          { width := 8, height := 1, power_state := SHARP_POWER_ON, vcom_state := false,
            frame_count := 0, vcom_gpio := none, backlit_gpio := none, backlight_on := false }
          ⟨[]⟩ 0 (some [0xAA])).bus.calls.map (fun c => wire_bytes c.1)
        = [some [0x80, 0x01, 0xAA, 0x00]]) ∧
    ((jdi_write_line { spi_ret := fun _ => 0, kzalloc_ok := true }
          { width := 8, height := 1, power_state := SHARP_POWER_ON, vcom_state := false,
            frame_count := 0, vcom_gpio := none, backlit_gpio := none, backlight_on := false }
          ⟨[]⟩ 0 (some [0xAA])).bus.calls.map (fun c => wire_bytes c.1)
        ≠ [some ([0x80 ||| ((0 + 1) &&& 0x7F)] ++ [0xAA] ++ [0x00])]) ∧
    ((jdi_write_line { spi_ret := fun _ => 0, kzalloc_ok := true }
          { width := 8, height := 128, power_state := SHARP_POWER_ON, vcom_state := false,
            frame_count := 0, vcom_gpio := none, backlit_gpio := none, backlight_on := false }
          ⟨[]⟩ 127 (some [0xAA])).bus.calls.map (fun c => wire_bytes c.1)
        = [some [0x80, 0x80, 0xAA, 0x00]]) ∧
    (0x80 ||| ((127 + 1) &&& 0x7F) = 0x80) ∧
    ((jdi_write_line { spi_ret := fun _ => 0, kzalloc_ok := true }
          { width := 4294967295, height := 1, power_state := SHARP_POWER_ON,
            vcom_state := false, frame_count := 0, vcom_gpio := none, backlit_gpio := none,
            backlight_on := false }
          ⟨[]⟩ 0 (some [0xAA])).bus.calls.map (fun c => wire_bytes c.1)
        = [some [0x80, 0x01, 0x00]]) ∧
    ((4294967295 + 7) / 8 = 536870912) := by
  decide

/-- The mask `& 0x7F` keeps the low seven bits. -/
theorem and_0x7F (n : Nat) : n &&& 0x7F = n % 128 :=
  Nat.and_pow_two_sub_one_eq_mod n 7

/-- The mask `& 0x07` keeps the low three bits. -/
theorem and_0x07 (n : Nat) : n &&& 0x07 = n % 8 :=
  Nat.and_pow_two_sub_one_eq_mod n 3

/-- Setting bit 7 on a seven-bit value adds 128. -/
theorem or_0x80 (n : Nat) (h : n < 128) : 0x80 ||| n = 128 + n := by
  have := Nat.mul_add_lt_is_or (show n < 2 ^ 7 by omega) 1
  simpa using this.symm

/-- The colour address pair decodes to the low ten bits of `row + 1`. -/
theorem color_address_decode (row : Nat) :
    ((0x80 ||| ((row + 1) &&& 0x7F)) &&& 0x7F) ||| ((((row + 1) >>> 7) &&& 0x07) <<< 7)
      = (row + 1) % 1024 := by
  rw [and_0x7F (row + 1), and_0x07, or_0x80 _ (Nat.mod_lt _ (by decide)), and_0x7F,
    Nat.shiftRight_eq_div_pow, Nat.shiftLeft_eq, Nat.lor_comm, Nat.mul_comm]
  have h := Nat.mul_add_lt_is_or (show (128 + (row + 1) % 128) % 128 < 2 ^ 7 by omega)
    ((row + 1) / 2 ^ 7 % 8)
  rw [← h]
  omega

/-- A colour line write for a row below the panel height hands exactly one
message to the bus. -/
theorem jdi_write_color_line_eq (env : Env) (sdev : sharp_drm_device) (bus : Bus) (row : Nat)
    (line : List Nat) (h : row < sdev.height) :
    jdi_write_color_line env sdev bus row (some line) =
      ⟨sdev, ⟨bus.calls ++ [(color_line_message sdev row line, env.spi_ret bus.calls.length)]⟩,
        some (env.spi_ret bus.calls.length)⟩ := by
  have h1 : ¬ (row % 65536 ≥ sdev.height) := by
    have := Nat.mod_le row 65536
    omega
  have h2 : (0x80 ||| ((row % 65536 + 1) &&& 0x7F)) % 256 = 0x80 ||| ((row + 1) &&& 0x7F) := by
    rw [and_0x7F, and_0x7F, or_0x80 _ (Nat.mod_lt _ (by decide)),
      or_0x80 _ (Nat.mod_lt _ (by decide))]
    omega
  have h3 : (((row % 65536 + 1) >>> 7) &&& 0x07) % 256 = ((row + 1) >>> 7) &&& 0x07 := by
    rw [and_0x07, and_0x07, Nat.shiftRight_eq_div_pow, Nat.shiftRight_eq_div_pow]
    omega
  simp only [jdi_write_color_line, h1, if_false, h2, h3, spi_sync, color_line_message]

/-- C3 (as amended). For every panel width with width*3 + 7 < 2^32 and every row
below the panel height (and a line buffer holding the payload) the colour line
write sends byte0 = 0x80 | ((row+1) & 0x7F), byte1 = ((row+1) >> 7) & 0x07, then
exactly ceil(width*3/8) payload bytes, then one trailer byte 0x00; for
row+1 < 1024 the address is recovered as (byte0 & 0x7F) | (byte1 << 7) = row+1,
so distinct rows get distinct address pairs. -/
theorem jdi_write_color_line_frame (env : Env) (sdev : sharp_drm_device) (bus : Bus)
    (row : Nat) (line : List Nat) (hw : sdev.width * 3 + 7 < 4294967296)
    (hrow : row < sdev.height) (hlen : (sdev.width * 3 + 7) / 8 ≤ line.length) :
    (∃ msg,
      (jdi_write_color_line env sdev bus row (some line)).bus.calls
        = bus.calls ++ [(msg, env.spi_ret bus.calls.length)] ∧
      wire_bytes msg
        = some ([0x80 ||| ((row + 1) &&& 0x7F), ((row + 1) >>> 7) &&& 0x07]
            ++ line.take ((sdev.width * 3 + 7) / 8) ++ [0x00])) ∧
    (line.take ((sdev.width * 3 + 7) / 8)).length = (sdev.width * 3 + 7) / 8 ∧
    (sdev.width * 3 ≤ 8 * ((sdev.width * 3 + 7) / 8) ∧
      8 * ((sdev.width * 3 + 7) / 8) < sdev.width * 3 + 8) ∧
    (row + 1 < 1024 →
      ((0x80 ||| ((row + 1) &&& 0x7F)) &&& 0x7F) ||| ((((row + 1) >>> 7) &&& 0x07) <<< 7)
        = row + 1) ∧
    (∀ row2 : Nat, row + 1 < 1024 → row2 + 1 < 1024 →
      0x80 ||| ((row + 1) &&& 0x7F) = 0x80 ||| ((row2 + 1) &&& 0x7F) →
      ((row + 1) >>> 7) &&& 0x07 = ((row2 + 1) >>> 7) &&& 0x07 → row = row2) := by
  refine ⟨⟨color_line_message sdev row line, ?_, ?_⟩, ?_, ⟨?_, ?_⟩, ?_, ?_⟩
  · rw [jdi_write_color_line_eq env sdev bus row line hrow]
  · simp [wire_bytes, color_line_message, transfer_bytes, hlen, Nat.mod_eq_of_lt hw]
  · simp [List.length_take, hlen]
  · omega
  · omega
  · intro h
    rw [color_address_decode, Nat.mod_eq_of_lt h]
  · intro row2 h h2 e0 e1
    have d1 := color_address_decode row
    have d2 := color_address_decode row2
    rw [e0, e1, d2, Nat.mod_eq_of_lt h2] at d1
    rw [Nat.mod_eq_of_lt h] at d1
    omega

/-- C3 witness: row 299 of an 8x500 colour panel, a 3-byte line. -/
theorem jdi_write_color_line_frame_witness :
    (∃ msg,
      (jdi_write_color_line { spi_ret := fun _ => 0, kzalloc_ok := true }
          { width := 8, height := 500, power_state := SHARP_POWER_ON, vcom_state := false,
            frame_count := 0, vcom_gpio := none, backlit_gpio := none, backlight_on := false }
          ⟨[]⟩ 299 (some [0x12, 0x34, 0x56])).bus.calls
        = [] ++ [(msg, 0)] ∧
      wire_bytes msg
        = some ([0x80 ||| ((299 + 1) &&& 0x7F), ((299 + 1) >>> 7) &&& 0x07]
            ++ [0x12, 0x34, 0x56].take ((8 * 3 + 7) / 8) ++ [0x00])) ∧
    ([0x12, 0x34, 0x56].take ((8 * 3 + 7) / 8)).length = (8 * 3 + 7) / 8 ∧
    (8 * 3 ≤ 8 * ((8 * 3 + 7) / 8) ∧ 8 * ((8 * 3 + 7) / 8) < 8 * 3 + 8) ∧
    (299 + 1 < 1024 →
      ((0x80 ||| ((299 + 1) &&& 0x7F)) &&& 0x7F) ||| ((((299 + 1) >>> 7) &&& 0x07) <<< 7)
        = 299 + 1) ∧
    (∀ row2 : Nat, 299 + 1 < 1024 → row2 + 1 < 1024 →
      0x80 ||| ((299 + 1) &&& 0x7F) = 0x80 ||| ((row2 + 1) &&& 0x7F) →
      ((299 + 1) >>> 7) &&& 0x07 = ((row2 + 1) >>> 7) &&& 0x07 → 299 = row2) :=
  jdi_write_color_line_frame { spi_ret := fun _ => 0, kzalloc_ok := true }
    { width := 8, height := 500, power_state := SHARP_POWER_ON, vcom_state := false,
      frame_count := 0, vcom_gpio := none, backlit_gpio := none, backlight_on := false }
    ⟨[]⟩ 299 [0x12, 0x34, 0x56] (by decide) (by decide) (by decide)

/-- C3 (as stated) fails. On a panel of width 1431655766 the `u32` product
width * 3 + 7 wraps to 9, so row 0 is sent with a payload transfer of 1 byte
(the message is 0x81, 0x00, 0xAA, 0x00), where ceil(width*3/8) is 536870913. -/
theorem jdi_write_color_line_wrap_counterexample :
    ((jdi_write_color_line { spi_ret := fun _ => 0, kzalloc_ok := true }
          { width := 1431655766, height := 1, power_state := SHARP_POWER_ON,
            vcom_state := false, frame_count := 0, vcom_gpio := none, backlit_gpio := none,
            backlight_on := false }
          ⟨[]⟩ 0 (some [0xAA, 0xBB])).bus.calls
        = [([⟨[0x81, 0x00], 2⟩, ⟨[0xAA, 0xBB], 1⟩, ⟨[0x00], 1⟩], 0)]) ∧
    ((jdi_write_color_line { spi_ret := fun _ => 0, kzalloc_ok := true }
          { width := 1431655766, height := 1, power_state := SHARP_POWER_ON,
            vcom_state := false, frame_count := 0, vcom_gpio := none, backlit_gpio := none,
            backlight_on := false }
          ⟨[]⟩ 0 (some [0xAA, 0xBB])).bus.calls.map (fun c => wire_bytes c.1)
        = [some [0x81, 0x00, 0xAA, 0x00]]) ∧
    ((1431655766 * 3 + 7) / 8 = 536870913) := by
  decide

/-! ## Line packing: lemmas -/

/-- Reading a pixel back is a `testBit`. -/
theorem line_bit_eq (buf : List Nat) (x : Nat) :
    line_bit buf x = ((buf.getD (x / 8) 0).testBit (7 - x % 8)).toNat := by
  rw [Nat.toNat_testBit, line_bit, Nat.shiftRight_eq_div_pow]

/-- Setting a bit keeps the length of the buffer. -/
theorem length_set_bit (buf : List Nat) (i k : Nat) : (set_bit buf i k).length = buf.length := by
  simp [set_bit]

/-- Effect of setting the bit of pixel `x` on the bit of pixel `x2`. -/
theorem testBit_set_bit (buf : List Nat) (x x2 : Nat) :
    ((set_bit buf (x / 8) (7 - x % 8)).getD (x2 / 8) 0).testBit (7 - x2 % 8)
      = (decide (x2 = x ∧ x / 8 < buf.length) || (buf.getD (x2 / 8) 0).testBit (7 - x2 % 8)) := by
  simp only [set_bit, List.getD_eq_getElem?_getD, List.getElem?_modify]
  by_cases hlt : x2 / 8 < buf.length
  · rw [List.getElem?_eq_getElem hlt]
    by_cases hb : x / 8 = x2 / 8
    · simp only [hb, if_true, Option.map_eq_map, Option.map_some', Option.getD_some,
        Nat.testBit_or, Nat.one_shiftLeft, Nat.testBit_two_pow, hlt, and_true]
      by_cases hx : x2 = x
      · subst hx; simp
      · have : ¬ (7 - x % 8 = 7 - x2 % 8) := by omega
        simp [hx, this]
    · have hx : ¬ (x2 = x) := fun e => hb (by rw [e])
      simp [hb, hx]
  · have hx : ¬ (x2 = x ∧ x / 8 < buf.length) := fun e => hlt (by rw [e.1]; exact e.2)
    rw [List.getElem?_eq_none (by omega)]
    simp [hx]

/-- Packing columns keeps the length of the buffer. -/
theorem length_packed_fold (m : Nat → Nat) (n : Nat) (buf : List Nat) :
    ((List.range n).foldl (packed_pixel m) buf).length = buf.length := by
  induction n with
  | zero => simp
  | succ n ih =>
    rw [List.range_succ, List.foldl_append, List.foldl_cons, List.foldl_nil, packed_pixel]
    split
    · rw [length_set_bit, ih]
    · exact ih

/-- Length of a packed row. -/
theorem length_packed_line (w : Nat) (m : Nat → Nat) :
    (packed_line w m).length = (w + 7) / 8 := by
  rw [packed_line, length_packed_fold, List.length_replicate]

/-- On a buffer with a byte for every column below `n` the inner loop never
leaves the buffer, and packs the columns. -/
theorem pack_fold_some (m : Nat → Nat) (n : Nat) (buf : List Nat)
    (h : (n + 7) / 8 ≤ buf.length) :
    (List.range n).foldl (pack_pixel m) (some buf)
      = some ((List.range n).foldl (packed_pixel m) buf) := by
  induction n with
  | zero => rfl
  | succ n ih =>
    rw [List.range_succ, List.foldl_append, List.foldl_append, ih (by omega)]
    have hlt : n / 8 < ((List.range n).foldl (packed_pixel m) buf).length := by
      rw [length_packed_fold]; omega
    simp only [List.foldl_cons, List.foldl_nil, pack_pixel, packed_pixel, store_bit, hlt,
      if_true]
    split <;> rfl

/-- The inner loop stores nothing for a row whose reduced pixels are all 0. -/
theorem pack_fold_dark (m : Nat → Nat) (n : Nat) (buf : List Nat)
    (h : ∀ x, x < n → m x = 0) :
    (List.range n).foldl (pack_pixel m) (some buf) = some buf := by
  induction n with
  | zero => rfl
  | succ n ih =>
    rw [List.range_succ, List.foldl_append, ih (fun x hx => h x (by omega))]
    simp [pack_pixel, h n (by omega)]

/-- The inner loop only looks at the columns below the width. -/
theorem packed_fold_congr (f g : Nat → Nat) (n : Nat) (buf : List Nat)
    (h : ∀ x, x < n → f x = g x) :
    (List.range n).foldl (packed_pixel f) buf = (List.range n).foldl (packed_pixel g) buf := by
  induction n with
  | zero => rfl
  | succ n ih =>
    rw [List.range_succ, List.foldl_append, List.foldl_append, ih (fun x hx => h x (by omega))]
    simp only [List.foldl_cons, List.foldl_nil, packed_pixel, h n (by omega)]

/-- While `width + 7` fits in a `u32` the line buffer holds a byte for every
column: no store leaves it and the result is the packed row. -/
theorem pack_line_eq (w : Nat) (m : Nat → Nat) (hw : w + 7 < 4294967296) :
    pack_line w m = some (packed_line w m) := by
  rw [pack_line, packed_line]
  simp only [Nat.mod_eq_of_lt hw]
  exact pack_fold_some m w _ (by simp)

/-- A row whose reduced pixels are all 0 leaves the zeroed line buffer as it is. -/
theorem pack_line_dark (w : Nat) (m : Nat → Nat) (h : ∀ x, x < w → m x = 0) :
    pack_line w m = some (List.replicate ((w + 7) % 4294967296 / 8) 0) := by
  rw [pack_line]
  exact pack_fold_dark m w _ h

/-- While `width + 7` fits in a `u32` the update builds the packed row. -/
theorem update_line_eq (p : Params) (format : Nat) (px : Nat → Nat → Nat) (width y : Nat)
    (hw : width + 7 < 4294967296) :
    update_line p format px width y = some (packed_row p format px width y) := by
  rw [update_line, packed_row, pack_line_eq _ _ hw]

/-- Records of `n + 1` rows: the first row, then the `n` rows after it. -/
theorem update_records_succ (p : Params) (env : Env) (sdev : sharp_drm_device) (format : Nat)
    (px : Nat → Nat → Nat) (width base y n : Nat) :
    update_records p env sdev format px width base y (n + 1)
      = (mono_line_message sdev y ((update_line p format px width y).getD []),
            env.spi_ret base)
          :: update_records p env sdev format px width (base + 1) (y + 1) n := by
  simp only [update_records, List.range_succ_eq_map, List.map_cons, List.map_map,
    Nat.add_zero]
  congr 1
  apply List.map_congr_left
  intro i _
  simp only [Function.comp, Nat.succ_eq_add_one]
  rw [show y + (i + 1) = y + 1 + i by omega, show base + (i + 1) = base + 1 + i by omega]

/-- The row loop when every row write succeeds and the line buffer holds every
column: all `n` rows go out in order. -/
theorem update_rows_ok (p : Params) (env : Env) (sdev : sharp_drm_device) (format : Nat)
    (px : Nat → Nat → Nat) (width : Nat) (hw : width + 7 < 4294967296) :
    ∀ (n y : Nat) (ret : Int) (bus : Bus), y + n ≤ sdev.height →
      (∀ i, i < n → 0 ≤ env.spi_ret (bus.calls.length + i)) →
      update_rows p env sdev format px width n y ret bus
        = (⟨bus.calls ++ update_records p env sdev format px width bus.calls.length y n⟩,
            if n = 0 then ret else env.spi_ret (bus.calls.length + (n - 1)), false) := by
  intro n
  induction n with
  | zero => intro y ret bus _ _; simp [update_rows, update_records]
  | succ n ih =>
    intro y ret bus hy hok
    have h0 : ¬ (env.spi_ret bus.calls.length < 0) := by
      have := hok 0 (by omega)
      simpa using this
    rw [update_rows, update_line_eq p format px width y hw]
    simp only []
    rw [jdi_write_line_eq env sdev bus y _ (by omega)]
    simp only [Option.getD_some, h0, if_false]
    rw [ih (y + 1) _ _ (by omega)
      (by
        intro i hi
        have := hok (i + 1) (by omega)
        simp only [List.length_append, List.length_singleton]
        rw [show bus.calls.length + 1 + i = bus.calls.length + (i + 1) by omega]
        exact this)]
    rw [update_records_succ, update_line_eq p format px width y hw]
    simp only [List.length_append, List.length_singleton, List.append_assoc,
      List.singleton_append, Nat.add_one_ne_zero, if_false, Nat.add_sub_cancel,
      Option.getD_some]
    by_cases hn : n = 0
    · subst hn; simp
    · simp only [hn, if_false]
      rw [show bus.calls.length + 1 + (n - 1) = bus.calls.length + n by omega]

/-- An update outside state ON returns at once. -/
theorem update_display_skip (p : Params) (env : Env) (sdev : sharp_drm_device) (bus : Bus)
    (fb : Option drm_framebuffer) (h : sdev.power_state ≠ SHARP_POWER_ON) :
    sharp_drm_update_display p env sdev bus fb = ⟨sdev, bus, none⟩ := by
  cases fb with
  | none => rfl
  | some fb => simp [sharp_drm_update_display, h]

/-- An update in state ON with mapped pixels and an allocated line buffer runs
the row loop and counts the frame when the last `ret` is not negative. -/
theorem update_display_on (p : Params) (env : Env) (sdev : sharp_drm_device) (bus : Bus)
    (fb : drm_framebuffer) (px : Nat → Nat → Nat) (hon : sdev.power_state = SHARP_POWER_ON)
    (hv : fb.vaddr = some px) (hk : env.kzalloc_ok = true) :
    sharp_drm_update_display p env sdev bus (some fb)
      = if (update_rows p env sdev fb.format px (min fb.width sdev.width)
              (min fb.height sdev.height) 0 0 bus).2.2 = true
        then ⟨{ sdev with oob_store := true },
              (update_rows p env sdev fb.format px (min fb.width sdev.width)
                (min fb.height sdev.height) 0 0 bus).1, none⟩
        else if (update_rows p env sdev fb.format px (min fb.width sdev.width)
              (min fb.height sdev.height) 0 0 bus).2.1 ≥ 0
        then ⟨{ sdev with frame_count := (sdev.frame_count + 1) % 4294967296 },
              (update_rows p env sdev fb.format px (min fb.width sdev.width)
                (min fb.height sdev.height) 0 0 bus).1, none⟩
        else ⟨sdev, (update_rows p env sdev fb.format px (min fb.width sdev.width)
                (min fb.height sdev.height) 0 0 bus).1, none⟩ := by
  simp [sharp_drm_update_display, hon, hv, hk]

/-- C7. For every frame source, an update while the power state is OFF or
STANDBY is a no-op: no bus transaction is issued and the device state (power
state, VCOM polarity, frame counter and all other fields) is unchanged. -/
theorem update_display_off_standby_noop (p : Params) (env : Env) (sdev : sharp_drm_device)
    (bus : Bus) (fb : Option drm_framebuffer)
    (h : sdev.power_state = SHARP_POWER_OFF ∨ sdev.power_state = SHARP_POWER_STANDBY) :
    (sharp_drm_update_display p env sdev bus fb).bus = bus ∧
    (sharp_drm_update_display p env sdev bus fb).sdev = sdev := by
  have hne : sdev.power_state ≠ SHARP_POWER_ON := by
    rcases h with h | h <;> rw [h] <;> decide
  rw [update_display_skip p env sdev bus fb hne]
  exact ⟨rfl, rfl⟩

/-- C7 witness: a 400x240 panel in STANDBY offered a white 400x240 frame. -/
theorem update_display_off_standby_noop_witness :
    (sharp_drm_update_display { mono_cutoff := 127, mono_invert := false }
        { spi_ret := fun _ => 0, kzalloc_ok := true }
        { width := 400, height := 240, power_state := SHARP_POWER_STANDBY, vcom_state := true,
          frame_count := 7, vcom_gpio := none, backlit_gpio := none, backlight_on := false }
        ⟨[]⟩
        (some { width := 400, height := 240, format := DRM_FORMAT_XRGB8888,
                vaddr := some (fun _ _ => 0xFFFFFF) })).bus = ⟨[]⟩ ∧
    (sharp_drm_update_display { mono_cutoff := 127, mono_invert := false }
        { spi_ret := fun _ => 0, kzalloc_ok := true }
        { width := 400, height := 240, power_state := SHARP_POWER_STANDBY, vcom_state := true,
          frame_count := 7, vcom_gpio := none, backlit_gpio := none, backlight_on := false }
        ⟨[]⟩
        (some { width := 400, height := 240, format := DRM_FORMAT_XRGB8888,
                vaddr := some (fun _ _ => 0xFFFFFF) })).sdev
      = { width := 400, height := 240, power_state := SHARP_POWER_STANDBY, vcom_state := true,
          frame_count := 7, vcom_gpio := none, backlit_gpio := none, backlight_on := false } :=
  update_display_off_standby_noop { mono_cutoff := 127, mono_invert := false }
    { spi_ret := fun _ => 0, kzalloc_ok := true }
    { width := 400, height := 240, power_state := SHARP_POWER_STANDBY, vcom_state := true,
      frame_count := 7, vcom_gpio := none, backlit_gpio := none, backlight_on := false }
    ⟨[]⟩
    (some { width := 400, height := 240, format := DRM_FORMAT_XRGB8888,
            vaddr := some (fun _ _ => 0xFFFFFF) })
    (Or.inr rfl)

/-- A white 32-bit element decodes to the white pixel and reduces to 1 at cutoff 127. -/
theorem white_pixel_lit (p : Params) (format : Nat)
    (hc : p.mono_cutoff = 127) (hi : p.mono_invert = false)
    (hf : format = DRM_FORMAT_XRGB8888 ∨ format = DRM_FORMAT_ARGB8888) :
    rgb_to_mono_simple p (extract_pixel format 0xFFFFFF) = 1 := by
  have h1 : extract_pixel format 0xFFFFFF = 0xFFFFFF := by
    simp only [extract_pixel, hf, if_true]
    decide
  rw [h1]
  simp only [rgb_to_mono_simple, hc, hi]
  decide

/-- C5. With the device ON, panel width 4, cutoff 127 and no inversion, updating
from a 4x2 frame whose pixels are all white (0xFFFFFF) produces exactly two
line-write bus transactions, in order, whose payload is the single byte 0xF0,
whose wire addresses are 1 and 2, each ending with a single trailer byte 0x00. -/
theorem update_display_white_4x2 (p : Params) (env : Env) (sdev : sharp_drm_device)
    (bus : Bus) (fb : drm_framebuffer) (px : Nat → Nat → Nat)
    (hon : sdev.power_state = SHARP_POWER_ON) (hw : sdev.width = 4) (hh : 2 ≤ sdev.height)
    (hc : p.mono_cutoff = 127) (hi : p.mono_invert = false)
    (hfw : fb.width = 4) (hfh : fb.height = 2)
    (hf : fb.format = DRM_FORMAT_XRGB8888 ∨ fb.format = DRM_FORMAT_ARGB8888)
    (hv : fb.vaddr = some px) (hwhite : ∀ y x, y < 2 → x < 4 → px y x = 0xFFFFFF)
    (hk : env.kzalloc_ok = true)
    (hok0 : 0 ≤ env.spi_ret bus.calls.length) (hok1 : 0 ≤ env.spi_ret (bus.calls.length + 1)) :
    (sharp_drm_update_display p env sdev bus (some fb)).bus.calls
      = bus.calls ++
          [([⟨[0x80], 1⟩, ⟨[1], 1⟩, ⟨[0xF0], 1⟩, ⟨[0x00], 1⟩], env.spi_ret bus.calls.length),
           ([⟨[0x80], 1⟩, ⟨[2], 1⟩, ⟨[0xF0], 1⟩, ⟨[0x00], 1⟩],
              env.spi_ret (bus.calls.length + 1))] ∧
    wire_bytes [⟨[0x80], 1⟩, ⟨[1], 1⟩, ⟨[0xF0], 1⟩, ⟨[0x00], 1⟩] = some [0x80, 1, 0xF0, 0x00] ∧
    wire_bytes [⟨[0x80], 1⟩, ⟨[2], 1⟩, ⟨[0xF0], 1⟩, ⟨[0x00], 1⟩] = some [0x80, 2, 0xF0, 0x00] := by
  refine ⟨?_, by decide, by decide⟩
  have hmin : min fb.height sdev.height = 2 := by rw [hfh]; omega
  have hminw : min fb.width sdev.width = 4 := by rw [hfw, hw]; rfl
  have hr := update_rows_ok p env sdev fb.format px (min fb.width sdev.width)
    (by rw [hminw]; decide)
    (min fb.height sdev.height) 0 0 bus (by omega)
    (by
      intro i hi2
      have : i = 0 ∨ i = 1 := by omega
      rcases this with h | h <;> subst h
      · simpa using hok0
      · exact hok1)
  have hline : ∀ y, y < 2 → update_line p fb.format px 4 y = some [0xF0] := by
    intro y hy
    have hcong := packed_fold_congr
      (fun x => rgb_to_mono_simple p (extract_pixel fb.format (px y x))) (fun _ => 1) 4
      (List.replicate ((4 + 7) / 8) 0)
      (fun x hx => by
        simp only []
        rw [hwhite y x hy hx]
        exact white_pixel_lit p fb.format hc hi hf)
    rw [update_line_eq p fb.format px 4 y (by decide), packed_row, packed_line, hcong]
    decide
  have hpos : (if min fb.height sdev.height = 0 then (0 : Int)
      else env.spi_ret (bus.calls.length + (min fb.height sdev.height - 1))) ≥ 0 := by
    rw [hmin]; exact hok1
  rw [update_display_on p env sdev bus fb px hon hv hk, hr, if_neg (by simp), if_pos hpos]
  simp only [hmin, hminw, update_records, List.range_succ, List.range_zero, List.nil_append,
    List.map_cons, List.map_nil, List.cons_append, Nat.add_zero, Nat.zero_add,
    hline 0 (by decide), hline 1 (by decide), mono_line_message, Option.getD_some]
  rw [hw]

/-- C5 witness: the default-cutoff 4x2 panel and a white XRGB8888 4x2 frame. -/
theorem update_display_white_4x2_witness :
    (sharp_drm_update_display { mono_cutoff := 127, mono_invert := false }
        { spi_ret := fun _ => 0, kzalloc_ok := true }
        { width := 4, height := 2, power_state := SHARP_POWER_ON, vcom_state := false,
          frame_count := 0, vcom_gpio := none, backlit_gpio := none, backlight_on := false }
        ⟨[]⟩
        (some { width := 4, height := 2, format := DRM_FORMAT_XRGB8888,
                vaddr := some (fun _ _ => 0xFFFFFF) })).bus.calls
      = [] ++
          [([⟨[0x80], 1⟩, ⟨[1], 1⟩, ⟨[0xF0], 1⟩, ⟨[0x00], 1⟩], 0),
           ([⟨[0x80], 1⟩, ⟨[2], 1⟩, ⟨[0xF0], 1⟩, ⟨[0x00], 1⟩], 0)] :=
  (update_display_white_4x2 { mono_cutoff := 127, mono_invert := false }
    { spi_ret := fun _ => 0, kzalloc_ok := true }
    { width := 4, height := 2, power_state := SHARP_POWER_ON, vcom_state := false,
      frame_count := 0, vcom_gpio := none, backlit_gpio := none, backlight_on := false }
    ⟨[]⟩
    { width := 4, height := 2, format := DRM_FORMAT_XRGB8888,
      vaddr := some (fun _ _ => 0xFFFFFF) }
    (fun _ _ => 0xFFFFFF) rfl rfl (by decide) rfl rfl rfl rfl (Or.inl rfl) rfl
    (fun _ _ _ _ => rfl) rfl (by decide) (by decide)).1

/-! ## Power-state gate of the bus-facing operations -/

/-- The clear command goes to the bus whatever the power state is. -/
theorem clear_display_calls (env : Env) (sdev : sharp_drm_device) (bus : Bus) :
    (sharp_drm_clear_display env sdev bus).bus.calls
      = bus.calls ++ [([⟨[0x20], 1⟩, ⟨[0x00], 1⟩], env.spi_ret bus.calls.length)] := by
  simp [sharp_drm_clear_display, spi_sync, JDI_CMD_CLEAR_ALL]

/-- Outside state ON a VCOM toggle flips the polarity but leaves the bus alone. -/
theorem toggle_vcom_bus_not_on (env : Env) (sdev : sharp_drm_device) (bus : Bus)
    (h : sdev.power_state ≠ SHARP_POWER_ON) :
    (sharp_drm_toggle_vcom env sdev bus).bus = bus := by
  unfold sharp_drm_toggle_vcom
  cases hg : sdev.vcom_gpio <;> simp [h]

/-- Outside state ON the test pattern returns at once. -/
theorem test_pattern_not_on (env : Env) (sdev : sharp_drm_device) (bus : Bus) (pattern : Int)
    (h : sdev.power_state ≠ SHARP_POWER_ON) :
    sharp_drm_test_pattern env sdev bus pattern = ⟨sdev, bus, none⟩ := by
  simp [sharp_drm_test_pattern, h]

/-- In state ON a VCOM toggle sends the command byte 0x40 and the trailer,
whatever the polarity. -/
theorem toggle_vcom_calls_on (env : Env) (sdev : sharp_drm_device) (bus : Bus)
    (h : sdev.power_state = SHARP_POWER_ON) :
    (sharp_drm_toggle_vcom env sdev bus).bus.calls
      = bus.calls ++ [([⟨[0x40], 1⟩, ⟨[0x00], 1⟩], env.spi_ret bus.calls.length)] := by
  unfold sharp_drm_toggle_vcom
  cases hg : sdev.vcom_gpio <;> cases hs : sdev.vcom_state <;>
    simp [h, spi_sync, JDI_CMD_VCOM]

/-- C6 at the failing input. With the power state OFF, and likewise STANDBY,
`sharp_drm_clear_display` hands the clear message 0x20, 0x00 to the bus, while
update, VCOM toggle and test pattern leave the bus untouched there. -/
theorem clear_display_off_issues_transaction :
    ((sharp_drm_clear_display { spi_ret := fun _ => 0, kzalloc_ok := true }
        { width := 400, height := 240, power_state := SHARP_POWER_OFF, vcom_state := false,
          frame_count := 0, vcom_gpio := none, backlit_gpio := none, backlight_on := false }
        ⟨[]⟩).bus.calls.map (fun c => wire_bytes c.1) = [some [0x20, 0x00]]) ∧
    ((sharp_drm_clear_display { spi_ret := fun _ => 0, kzalloc_ok := true }
        { width := 400, height := 240, power_state := SHARP_POWER_STANDBY, vcom_state := false,
          frame_count := 0, vcom_gpio := none, backlit_gpio := none, backlight_on := false }
        ⟨[]⟩).bus.calls.map (fun c => wire_bytes c.1) = [some [0x20, 0x00]]) ∧
    ((sharp_drm_update_display { mono_cutoff := 127, mono_invert := false }
        { spi_ret := fun _ => 0, kzalloc_ok := true }
        { width := 400, height := 240, power_state := SHARP_POWER_OFF, vcom_state := false,
          frame_count := 0, vcom_gpio := none, backlit_gpio := none, backlight_on := false }
        ⟨[]⟩
        (some { width := 400, height := 240, format := DRM_FORMAT_XRGB8888,
                vaddr := some (fun _ _ => 0xFFFFFF) })).bus.calls = []) ∧
    ((sharp_drm_toggle_vcom { spi_ret := fun _ => 0, kzalloc_ok := true }
        { width := 400, height := 240, power_state := SHARP_POWER_OFF, vcom_state := false,
          frame_count := 0, vcom_gpio := none, backlit_gpio := none, backlight_on := false }
        ⟨[]⟩).bus.calls = []) ∧
    ((sharp_drm_test_pattern { spi_ret := fun _ => 0, kzalloc_ok := true }
        { width := 400, height := 240, power_state := SHARP_POWER_OFF, vcom_state := false,
          frame_count := 0, vcom_gpio := none, backlit_gpio := none, backlight_on := false }
        ⟨[]⟩ 0).bus.calls = []) := by
  decide

/-- C10 at the failing input. In state ON the VCOM message is the two bytes
0x40, 0x00 both when the toggle makes the polarity 1 and when it makes it 0: the
command byte does not depend on the polarity. -/
theorem toggle_vcom_command_ignores_polarity :
    ((sharp_drm_toggle_vcom { spi_ret := fun _ => 0, kzalloc_ok := true }
        { width := 400, height := 240, power_state := SHARP_POWER_ON, vcom_state := false,
          frame_count := 0, vcom_gpio := some false, backlit_gpio := none,
          backlight_on := false }
        ⟨[]⟩).sdev.vcom_state = true) ∧
    ((sharp_drm_toggle_vcom { spi_ret := fun _ => 0, kzalloc_ok := true }
        { width := 400, height := 240, power_state := SHARP_POWER_ON, vcom_state := false,
          frame_count := 0, vcom_gpio := some false, backlit_gpio := none,
          backlight_on := false }
        ⟨[]⟩).bus.calls.map (fun c => wire_bytes c.1) = [some [0x40, 0x00]]) ∧
    ((sharp_drm_toggle_vcom { spi_ret := fun _ => 0, kzalloc_ok := true }
        { width := 400, height := 240, power_state := SHARP_POWER_ON, vcom_state := true,
          frame_count := 0, vcom_gpio := some true, backlit_gpio := none,
          backlight_on := false }
        ⟨[]⟩).sdev.vcom_state = false) ∧
    ((sharp_drm_toggle_vcom { spi_ret := fun _ => 0, kzalloc_ok := true }
        { width := 400, height := 240, power_state := SHARP_POWER_ON, vcom_state := true,
          frame_count := 0, vcom_gpio := some true, backlit_gpio := none,
          backlight_on := false }
        ⟨[]⟩).bus.calls.map (fun c => wire_bytes c.1) = [some [0x40, 0x00]]) := by
  decide

/-! ## Clear command, statistics, argument checks -/

/-- C11. For every panel width and height, clear-all issues exactly one bus
transaction consisting of exactly two bytes: the clear opcode 0x20 and one
trailer byte 0x00 - no address byte and no payload. -/
theorem clear_display_one_transaction (env : Env) (sdev : sharp_drm_device) (bus : Bus) :
    (sharp_drm_clear_display env sdev bus).bus.calls
      = bus.calls ++ [([⟨[0x20], 1⟩, ⟨[0x00], 1⟩], env.spi_ret bus.calls.length)] ∧
    (sharp_drm_clear_display env sdev bus).bus.calls.length = bus.calls.length + 1 ∧
    wire_bytes [⟨[0x20], 1⟩, ⟨[0x00], 1⟩] = some [0x20, 0x00] := by
  refine ⟨clear_display_calls env sdev bus, ?_, by decide⟩
  rw [clear_display_calls]
  simp

/-- No bus operation touches the statistics counters. -/
theorem stats_untouched (env : Env) (sdev : sharp_drm_device) (bus : Bus)
    (cmd len row : Nat) (data : Option (List Nat)) :
    sharp_spi_get_stats (sharp_spi_write_command env sdev bus cmd).sdev
      = sharp_spi_get_stats sdev ∧
    sharp_spi_get_stats (sharp_spi_write_data env sdev bus data len).sdev
      = sharp_spi_get_stats sdev ∧
    sharp_spi_get_stats (jdi_write_line env sdev bus row data).sdev
      = sharp_spi_get_stats sdev ∧
    sharp_spi_get_stats (jdi_write_color_line env sdev bus row data).sdev
      = sharp_spi_get_stats sdev ∧
    sharp_spi_get_stats (sharp_drm_clear_display env sdev bus).sdev
      = sharp_spi_get_stats sdev ∧
    sharp_spi_get_stats (sharp_drm_toggle_vcom env sdev bus).sdev
      = sharp_spi_get_stats sdev := by
  refine ⟨rfl, ?_, ?_, ?_, rfl, ?_⟩
  · cases data with
    | none => rfl
    | some d => simp only [sharp_spi_write_data]; split <;> rfl
  · cases data with
    | none => rfl
    | some d => simp only [jdi_write_line]; split <;> rfl
  · cases data with
    | none => rfl
    | some d => simp only [jdi_write_color_line]; split <;> rfl
  · unfold sharp_drm_toggle_vcom
    cases hg : sdev.vcom_gpio <;> simp only [] <;> split <;>
      simp [sharp_spi_get_stats, gpiod_set_value]

/-- A frame update does not touch the statistics counters either. -/
theorem stats_untouched_by_update (p : Params) (env : Env) (sdev : sharp_drm_device) (bus : Bus)
    (fb : Option drm_framebuffer) :
    sharp_spi_get_stats (sharp_drm_update_display p env sdev bus fb).sdev
      = sharp_spi_get_stats sdev := by
  unfold sharp_drm_update_display
  repeat' split
  all_goals first | rfl | (simp only []; repeat' split) <;> rfl

/-- C12 at the failing input. With both counters at 0, a successful
`sharp_spi_write_command`, a successful 3-byte `sharp_spi_write_data`, a
successful line write and a successful clear each reach the bus, and each leaves
`sharp_spi_get_stats` at (0 bytes, 0 transfers). -/
theorem spi_stats_never_counted :
    ((sharp_spi_write_command { spi_ret := fun _ => 0, kzalloc_ok := true }
        { width := 8, height := 1, power_state := SHARP_POWER_ON, vcom_state := false,
          frame_count := 0, vcom_gpio := none, backlit_gpio := none, backlight_on := false,
          spi_buf_size := 17 }
        ⟨[]⟩ 0x20).bus.calls.map (fun c => (wire_bytes c.1, c.2)) = [(some [0x20], 0)]) ∧
    (sharp_spi_get_stats (sharp_spi_write_command { spi_ret := fun _ => 0, kzalloc_ok := true }
        { width := 8, height := 1, power_state := SHARP_POWER_ON, vcom_state := false,
          frame_count := 0, vcom_gpio := none, backlit_gpio := none, backlight_on := false,
          spi_buf_size := 17 }
        ⟨[]⟩ 0x20).sdev = (0, 0)) ∧
    ((sharp_spi_write_data { spi_ret := fun _ => 0, kzalloc_ok := true }
        { width := 8, height := 1, power_state := SHARP_POWER_ON, vcom_state := false,
          frame_count := 0, vcom_gpio := none, backlit_gpio := none, backlight_on := false,
          spi_buf_size := 17 }
        ⟨[]⟩ (some [1, 2, 3]) 3).bus.calls.map (fun c => (wire_bytes c.1, c.2))
      = [(some [1, 2, 3], 0)]) ∧
    (sharp_spi_get_stats (sharp_spi_write_data { spi_ret := fun _ => 0, kzalloc_ok := true }
        { width := 8, height := 1, power_state := SHARP_POWER_ON, vcom_state := false,
          frame_count := 0, vcom_gpio := none, backlit_gpio := none, backlight_on := false,
          spi_buf_size := 17 }
        ⟨[]⟩ (some [1, 2, 3]) 3).sdev = (0, 0)) ∧
    (sharp_spi_get_stats (jdi_write_line { spi_ret := fun _ => 0, kzalloc_ok := true }
        { width := 8, height := 1, power_state := SHARP_POWER_ON, vcom_state := false,
          frame_count := 0, vcom_gpio := none, backlit_gpio := none, backlight_on := false,
          spi_buf_size := 17 }
        ⟨[]⟩ 0 (some [0xFF])).sdev = (0, 0)) ∧
    (sharp_spi_get_stats (sharp_drm_clear_display { spi_ret := fun _ => 0, kzalloc_ok := true }
        { width := 8, height := 1, power_state := SHARP_POWER_ON, vcom_state := false,
          frame_count := 0, vcom_gpio := none, backlit_gpio := none, backlight_on := false,
          spi_buf_size := 17 }
        ⟨[]⟩).sdev = (0, 0)) := by
  decide

/-- C18. Invalid arguments are rejected with -EINVAL before any bus traffic:
for every (16-bit) row index >= panel height, and for a missing line buffer,
`jdi_write_line` and `jdi_write_color_line` return -EINVAL and issue no bus
transaction; for every length greater than the device's SPI buffer size
`sharp_spi_write_data` returns -EINVAL and issues no bus transaction. -/
theorem invalid_arguments_rejected (env : Env) (sdev : sharp_drm_device) (bus : Bus) :
    (∀ (row : Nat) (line_data : Option (List Nat)), row < 65536 → sdev.height ≤ row →
      jdi_write_line env sdev bus row line_data = ⟨sdev, bus, some (-22)⟩) ∧
    (∀ row : Nat, jdi_write_line env sdev bus row none = ⟨sdev, bus, some (-22)⟩) ∧
    (∀ (row : Nat) (line_data : Option (List Nat)), row < 65536 → sdev.height ≤ row →
      jdi_write_color_line env sdev bus row line_data = ⟨sdev, bus, some (-22)⟩) ∧
    (∀ row : Nat, jdi_write_color_line env sdev bus row none = ⟨sdev, bus, some (-22)⟩) ∧
    (∀ (data : Option (List Nat)) (len : Nat), sdev.spi_buf_size < len →
      sharp_spi_write_data env sdev bus data len = ⟨sdev, bus, some (-22)⟩) := by
  refine ⟨?_, fun _ => rfl, ?_, fun _ => rfl, ?_⟩
  · intro row line_data h16 hrow
    cases line_data with
    | none => rfl
    | some d =>
      have h : row % 65536 ≥ sdev.height := by rw [Nat.mod_eq_of_lt h16]; exact hrow
      simp [jdi_write_line, h, EINVAL]
  · intro row line_data h16 hrow
    cases line_data with
    | none => rfl
    | some d =>
      have h : row % 65536 ≥ sdev.height := by rw [Nat.mod_eq_of_lt h16]; exact hrow
      simp [jdi_write_color_line, h, EINVAL]
  · intro data len hlen
    cases data with
    | none => rfl
    | some d => simp [sharp_spi_write_data, hlen, EINVAL]

/-! ## Pixel reducer: colour code and the cutoff 255 -/

/-- A 32-bit pixel assembled from four bytes is their base-256 numeral. -/
theorem argb_compose (A R G B : Nat) (hR : R < 256) (hG : G < 256) (hB : B < 256) :
    (A <<< 24) ||| (R <<< 16) ||| (G <<< 8) ||| B
      = A * 16777216 + R * 65536 + G * 256 + B := by
  have h1 : 2 ^ 8 * G + B = 2 ^ 8 * G ||| B := Nat.mul_add_lt_is_or (by omega) G
  have h2 : 2 ^ 16 * R + (2 ^ 8 * G + B) = 2 ^ 16 * R ||| (2 ^ 8 * G + B) :=
    Nat.mul_add_lt_is_or (by omega) R
  have h3 : 2 ^ 24 * A + (2 ^ 16 * R + (2 ^ 8 * G + B))
      = 2 ^ 24 * A ||| (2 ^ 16 * R + (2 ^ 8 * G + B)) :=
    Nat.mul_add_lt_is_or (by omega) A
  rw [Nat.lor_assoc, Nat.lor_assoc, Nat.shiftLeft_eq, Nat.shiftLeft_eq, Nat.shiftLeft_eq,
    Nat.mul_comm A, Nat.mul_comm R, Nat.mul_comm G, ← h1, ← h2, ← h3]
  omega

/-- The colour code in arithmetic form: channels by division, bits by threshold. -/
theorem rgb_to_3bit_color_eq (rgb_pixel : Nat) :
    rgb_to_3bit_color rgb_pixel
      = ((if rgb_pixel / 65536 % 256 > 127 then 1 else 0) <<< 2)
        ||| ((if rgb_pixel / 256 % 256 > 127 then 1 else 0) <<< 1)
        ||| (if rgb_pixel % 256 > 127 then 1 else 0) := by
  simp only [rgb_to_3bit_color, and_0xFF, Nat.shiftRight_eq_div_pow]

/-- C19. For every pixel with 8-bit channels R, G, B and any value A in the bits
from 24 up, `rgb_to_3bit_color` returns (R_bit << 2) | (G_bit << 1) | B_bit where
each channel bit is 1 exactly when that 8-bit channel is > 127; the result is in
0..7 and does not depend on bits 24-31. -/
theorem rgb_to_3bit_color_spec (A R G B : Nat) (hR : R < 256) (hG : G < 256)
    (hB : B < 256) :
    rgb_to_3bit_color ((A <<< 24) ||| (R <<< 16) ||| (G <<< 8) ||| B)
      = ((if R > 127 then 1 else 0) <<< 2) ||| ((if G > 127 then 1 else 0) <<< 1)
          ||| (if B > 127 then 1 else 0) ∧
    rgb_to_3bit_color ((A <<< 24) ||| (R <<< 16) ||| (G <<< 8) ||| B) ≤ 7 ∧
    rgb_to_3bit_color ((A <<< 24) ||| (R <<< 16) ||| (G <<< 8) ||| B)
      = rgb_to_3bit_color ((R <<< 16) ||| (G <<< 8) ||| B) := by
  have hr : (A * 16777216 + R * 65536 + G * 256 + B) / 65536 % 256 = R := by omega
  have hg : (A * 16777216 + R * 65536 + G * 256 + B) / 256 % 256 = G := by omega
  have hb : (A * 16777216 + R * 65536 + G * 256 + B) % 256 = B := by omega
  have hr0 : (R * 65536 + G * 256 + B) / 65536 % 256 = R := by omega
  have hg0 : (R * 65536 + G * 256 + B) / 256 % 256 = G := by omega
  have hb0 : (R * 65536 + G * 256 + B) % 256 = B := by omega
  have hval : rgb_to_3bit_color ((A <<< 24) ||| (R <<< 16) ||| (G <<< 8) ||| B)
      = ((if R > 127 then 1 else 0) <<< 2) ||| ((if G > 127 then 1 else 0) <<< 1)
          ||| (if B > 127 then 1 else 0) := by
    rw [argb_compose A R G B hR hG hB, rgb_to_3bit_color_eq, hr, hg, hb]
  refine ⟨hval, ?_, ?_⟩
  · rw [hval]
    by_cases h1 : R > 127 <;> by_cases h2 : G > 127 <;> by_cases h3 : B > 127 <;>
      simp [h1, h2, h3]
  · rw [hval, rgb_compose R G B hG hB, rgb_to_3bit_color_eq, hr0, hg0, hb0]

/-- C19 witness: alpha 0xFF, red 128, green 127, blue 255 gives the code 0b101. -/
theorem rgb_to_3bit_color_spec_witness :
    rgb_to_3bit_color ((0xFF <<< 24) ||| (128 <<< 16) ||| (127 <<< 8) ||| 255)
      = ((if 128 > 127 then 1 else 0) <<< 2) ||| ((if 127 > 127 then 1 else 0) <<< 1)
          ||| (if 255 > 127 then 1 else 0) ∧
    rgb_to_3bit_color ((0xFF <<< 24) ||| (128 <<< 16) ||| (127 <<< 8) ||| 255) ≤ 7 ∧
    rgb_to_3bit_color ((0xFF <<< 24) ||| (128 <<< 16) ||| (127 <<< 8) ||| 255)
      = rgb_to_3bit_color ((128 <<< 16) ||| (127 <<< 8) ||| 255) :=
  rgb_to_3bit_color_spec 0xFF 128 127 255 (by decide) (by decide) (by decide)

/-- The gray level `rgb_to_mono_simple` computes is at most 255. -/
theorem gray_le_255 (rgb_pixel : Nat) :
    ((((rgb_pixel >>> 16) &&& 0xFF) * 77 + ((rgb_pixel >>> 8) &&& 0xFF) * 151
        + (rgb_pixel &&& 0xFF) * 28) >>> 8) % 65536 ≤ 255 := by
  simp only [and_0xFF, Nat.shiftRight_eq_div_pow]
  have hr : rgb_pixel / 2 ^ 16 % 256 < 256 := Nat.mod_lt _ (by decide)
  have hg : rgb_pixel / 2 ^ 8 % 256 < 256 := Nat.mod_lt _ (by decide)
  have hb : rgb_pixel % 256 < 256 := Nat.mod_lt _ (by decide)
  generalize rgb_pixel / 2 ^ 16 % 256 = r at hr
  generalize rgb_pixel / 2 ^ 8 % 256 = g at hg
  generalize rgb_pixel % 256 = b at hb
  have he : (r * 77 + g * 151 + b * 28) / 2 ^ 8 ≤ 255 := by
    have h8 : (2 : Nat) ^ 8 = 256 := rfl
    rw [h8]
    omega
  exact le_trans (Nat.mod_le _ _) he

/-- C20. With cutoff = 255, for every pixel value the computed gray is at most
255, so with inversion off every pixel reduces to bit 0 and every packed line
buffer (for every width, with no store leaving the buffer) is all-zero bytes;
with inversion on every pixel reduces to bit 1. -/
theorem cutoff_255_all_dark (p : Params) (hc : p.mono_cutoff = 255) :
    (∀ rgb_pixel : Nat,
      ((((rgb_pixel >>> 16) &&& 0xFF) * 77 + ((rgb_pixel >>> 8) &&& 0xFF) * 151
          + (rgb_pixel &&& 0xFF) * 28) >>> 8) % 65536 ≤ 255) ∧
    (p.mono_invert = false → ∀ rgb_pixel : Nat, rgb_to_mono_simple p rgb_pixel = 0) ∧
    (p.mono_invert = false → ∀ (format : Nat) (px : Nat → Nat → Nat) (width y : Nat),
      update_line p format px width y
        = some (List.replicate ((width + 7) % 4294967296 / 8) 0)) ∧
    (p.mono_invert = true → ∀ rgb_pixel : Nat, rgb_to_mono_simple p rgb_pixel = 1) := by
  have hdark : p.mono_invert = false → ∀ rgb_pixel : Nat, rgb_to_mono_simple p rgb_pixel = 0 := by
    intro hi px
    have h := gray_le_255 px
    have hn : ¬ (((((px >>> 16) &&& 0xFF) * 77 + ((px >>> 8) &&& 0xFF) * 151
        + (px &&& 0xFF) * 28) >>> 8) % 65536 > 255) := by omega
    simp only [rgb_to_mono_simple, hc, hi, hn, if_false]
    rfl
  refine ⟨gray_le_255, hdark, ?_, ?_⟩
  · intro hi format px width y
    rw [update_line]
    exact pack_line_dark width _ (fun x _ => hdark hi _)
  · intro hi px
    have h := gray_le_255 px
    have hn : ¬ (((((px >>> 16) &&& 0xFF) * 77 + ((px >>> 8) &&& 0xFF) * 151
        + (px &&& 0xFF) * 28) >>> 8) % 65536 > 255) := by omega
    simp only [rgb_to_mono_simple, hc, hi, hn, if_false]
    rfl

/-- C20 witness: cutoff 255 without inversion. -/
theorem cutoff_255_all_dark_witness :
    (∀ rgb_pixel : Nat,
      ((((rgb_pixel >>> 16) &&& 0xFF) * 77 + ((rgb_pixel >>> 8) &&& 0xFF) * 151
          + (rgb_pixel &&& 0xFF) * 28) >>> 8) % 65536 ≤ 255) ∧
    ((false : Bool) = false → ∀ rgb_pixel : Nat,
      rgb_to_mono_simple { mono_cutoff := 255, mono_invert := false } rgb_pixel = 0) ∧
    ((false : Bool) = false → ∀ (format : Nat) (px : Nat → Nat → Nat) (width y : Nat),
      update_line { mono_cutoff := 255, mono_invert := false } format px width y
        = some (List.replicate ((width + 7) % 4294967296 / 8) 0)) ∧
    ((false : Bool) = true → ∀ rgb_pixel : Nat,
      rgb_to_mono_simple { mono_cutoff := 255, mono_invert := false } rgb_pixel = 1) :=
  cutoff_255_all_dark { mono_cutoff := 255, mono_invert := false } rfl

/-! ## Power state machine: lemmas -/

/-- A power-off always ends in state OFF. -/
theorem power_off_state (p : Params) (env : Env) (sdev : sharp_drm_device) (bus : Bus) :
    (sharp_drm_power_off p env sdev bus).sdev.power_state = SHARP_POWER_OFF := by
  unfold sharp_drm_power_off
  split
  · assumption
  · rfl

/-- A standby request always ends in state STANDBY. -/
theorem power_standby_state (sdev : sharp_drm_device) (bus : Bus) :
    (sharp_drm_power_standby sdev bus).sdev.power_state = SHARP_POWER_STANDBY := by
  unfold sharp_drm_power_standby
  split
  · assumption
  · rfl

/-- A VCOM toggle keeps the power state. -/
theorem toggle_vcom_power_state (env : Env) (sdev : sharp_drm_device) (bus : Bus) :
    (sharp_drm_toggle_vcom env sdev bus).sdev.power_state = sdev.power_state := by
  unfold sharp_drm_toggle_vcom
  cases hg : sdev.vcom_gpio <;> simp only [] <;> split <;> simp

/-- In state OFF an activity notification keeps the state OFF. -/
theorem update_activity_off (p : Params) (env : Env) (sdev : sharp_drm_device) (bus : Bus)
    (h : sdev.power_state = SHARP_POWER_OFF) :
    (sharp_drm_power_update_activity p env sdev bus).sdev.power_state = SHARP_POWER_OFF := by
  unfold sharp_drm_power_update_activity
  simp only [h]
  split
  · simp only [schedule_delayed_work, cancel_delayed_work]
    simp [h]
  · simp [h]

/-- From state OFF, a call other than power-on and standby keeps the state OFF. -/
theorem apply_call_off (p : Params) (st : sharp_drm_device × Bus) (c : Env × driver_call)
    (h : st.1.power_state = SHARP_POWER_OFF) (h1 : c.2 ≠ driver_call.power_on)
    (h2 : c.2 ≠ driver_call.standby) :
    (apply_call p st c).1.power_state = SHARP_POWER_OFF := by
  obtain ⟨env, call⟩ := c
  cases call with
  | power_on => exact absurd rfl h1
  | standby => exact absurd rfl h2
  | power_off => exact power_off_state p env st.1 st.2
  | resume => simp [apply_call, sharp_drm_power_resume, h]
  | update_activity => exact update_activity_off p env st.1 st.2 h
  | update fb =>
    simp only [apply_call]
    rw [update_display_skip p env st.1 st.2 fb (by rw [h]; decide)]
    exact h
  | clear => exact h
  | toggle_vcom =>
    simp only [apply_call]
    rw [toggle_vcom_power_state]
    exact h

/-- From state OFF, a sequence of calls with neither power-on nor standby in it
keeps the state OFF. -/
theorem run_calls_off (p : Params) (cs : List (Env × driver_call)) :
    ∀ st : sharp_drm_device × Bus, st.1.power_state = SHARP_POWER_OFF →
      (∀ c, c ∈ cs → c.2 ≠ driver_call.power_on ∧ c.2 ≠ driver_call.standby) →
      (run_calls p st cs).1.power_state = SHARP_POWER_OFF := by
  induction cs with
  | nil => intro st h _; exact h
  | cons c cs ih =>
    intro st h hall
    have hc := hall c (List.mem_cons_self c cs)
    simp only [run_calls, List.foldl_cons]
    exact ih (apply_call p st c) (apply_call_off p st c h hc.1 hc.2)
      (fun d hd => hall d (List.mem_cons_of_mem c hd))

/-- C13 at the failing input. From state OFF, the call sequence standby, resume
ends in state ON, and so does standby followed by an activity notification:
neither contains a call of power_on. -/
theorem standby_resume_reaches_on_from_off :
    ((run_calls { mono_cutoff := 127, mono_invert := false }
        ({ width := 400, height := 240, power_state := SHARP_POWER_OFF, vcom_state := false,
           frame_count := 0, vcom_gpio := none, backlit_gpio := none, backlight_on := false,
           vdd_supply := some 0, vddio_supply := some 0 }, ⟨[]⟩)
        [({ spi_ret := fun _ => 0, kzalloc_ok := true }, driver_call.standby)]).1.power_state
      = SHARP_POWER_STANDBY) ∧
    ((run_calls { mono_cutoff := 127, mono_invert := false }
        ({ width := 400, height := 240, power_state := SHARP_POWER_OFF, vcom_state := false,
           frame_count := 0, vcom_gpio := none, backlit_gpio := none, backlight_on := false,
           vdd_supply := some 0, vddio_supply := some 0 }, ⟨[]⟩)
        [({ spi_ret := fun _ => 0, kzalloc_ok := true }, driver_call.standby),
         ({ spi_ret := fun _ => 0, kzalloc_ok := true }, driver_call.resume)]).1.power_state
      = SHARP_POWER_ON) ∧
    ((run_calls { mono_cutoff := 127, mono_invert := false }
        ({ width := 400, height := 240, power_state := SHARP_POWER_OFF, vcom_state := false,
           frame_count := 0, vcom_gpio := none, backlit_gpio := none, backlight_on := false,
           vdd_supply := some 0, vddio_supply := some 0 }, ⟨[]⟩)
        [({ spi_ret := fun _ => 0, kzalloc_ok := true }, driver_call.standby),
         ({ spi_ret := fun _ => 0, kzalloc_ok := true },
            driver_call.update_activity)]).1.power_state
      = SHARP_POWER_ON) ∧
    ((run_calls { mono_cutoff := 127, mono_invert := false }
        ({ width := 400, height := 240, power_state := SHARP_POWER_OFF, vcom_state := false,
           frame_count := 0, vcom_gpio := none, backlit_gpio := none, backlight_on := false,
           vdd_supply := some 0, vddio_supply := some 0 }, ⟨[]⟩)
        [({ spi_ret := fun _ => 0, kzalloc_ok := true }, driver_call.standby),
         ({ spi_ret := fun _ => 0, kzalloc_ok := true }, driver_call.resume)]).1.vdd_supply
      = some 0) := by
  decide

/-- C14. For power_on called in state OFF with both rails present: if enabling
VDD succeeds and enabling VDDIO fails, power_on returns that error, VDD has been
disabled again (both enable counts are what they were), no GPIO line has been
driven, the VCOM timer has not been started, and the power state is still OFF;
if enabling VDD itself fails, power_on returns the error with no rail enabled
and the state still OFF.  In both cases the only calls made are the regulator
calls listed, and the rest of the device state and the bus are untouched. -/
theorem power_on_rail_failure (p : Params) (env : Env) (sdev : sharp_drm_device) (bus : Bus)
    (a b : Int) (hoff : sdev.power_state = SHARP_POWER_OFF)
    (hvdd : sdev.vdd_supply = some a) (hvddio : sdev.vddio_supply = some b) :
    (env.vdd_enable_ret = 0 → env.vddio_enable_ret ≠ 0 →
      sharp_drm_power_on p env sdev bus
        = ⟨{ sdev with hw_log := sdev.hw_log ++
              [hw_event.regulator_enable supply.vdd_supply 0,
               hw_event.regulator_enable supply.vddio_supply env.vddio_enable_ret,
               hw_event.regulator_disable supply.vdd_supply] },
            bus, some env.vddio_enable_ret⟩ ∧
      (sharp_drm_power_on p env sdev bus).sdev.vdd_supply = some a ∧
      (sharp_drm_power_on p env sdev bus).sdev.vddio_supply = some b ∧
      (sharp_drm_power_on p env sdev bus).sdev.vcom_timer_pending = sdev.vcom_timer_pending ∧
      (sharp_drm_power_on p env sdev bus).sdev.power_state = SHARP_POWER_OFF) ∧
    (env.vdd_enable_ret ≠ 0 →
      sharp_drm_power_on p env sdev bus
        = ⟨{ sdev with hw_log := sdev.hw_log ++
              [hw_event.regulator_enable supply.vdd_supply env.vdd_enable_ret] },
            bus, some env.vdd_enable_ret⟩ ∧
      (sharp_drm_power_on p env sdev bus).sdev.vdd_supply = some a ∧
      (sharp_drm_power_on p env sdev bus).sdev.vddio_supply = some b ∧
      (sharp_drm_power_on p env sdev bus).sdev.vcom_timer_pending = sdev.vcom_timer_pending ∧
      (sharp_drm_power_on p env sdev bus).sdev.power_state = SHARP_POWER_OFF) := by
  have hne : ¬ (sdev.power_state = SHARP_POWER_ON) := by rw [hoff]; decide
  constructor
  · intro h1 h2
    have heq : sharp_drm_power_on p env sdev bus
        = ⟨{ sdev with hw_log := sdev.hw_log ++
              [hw_event.regulator_enable supply.vdd_supply 0,
               hw_event.regulator_enable supply.vddio_supply env.vddio_enable_ret,
               hw_event.regulator_disable supply.vdd_supply] },
            bus, some env.vddio_enable_ret⟩ := by
      simp [sharp_drm_power_on, hne, hvdd, hvddio, h1, h2, regulator_enable, regulator_disable]
    rw [heq]
    exact ⟨rfl, hvdd, hvddio, rfl, hoff⟩
  · intro h1
    have heq : sharp_drm_power_on p env sdev bus
        = ⟨{ sdev with hw_log := sdev.hw_log ++
              [hw_event.regulator_enable supply.vdd_supply env.vdd_enable_ret] },
            bus, some env.vdd_enable_ret⟩ := by
      simp [sharp_drm_power_on, hne, hvdd, h1, regulator_enable]
    rw [heq]
    exact ⟨rfl, hvdd, hvddio, rfl, hoff⟩

/-- C14 witness: both rails present and disabled, VDDIO failing with -5. -/
theorem power_on_rail_failure_witness :
    sharp_drm_power_on { mono_cutoff := 127, mono_invert := false }
        { spi_ret := fun _ => 0, kzalloc_ok := true, vdd_enable_ret := 0, vddio_enable_ret := -5 }
        { width := 400, height := 240, power_state := SHARP_POWER_OFF, vcom_state := false,
          frame_count := 0, vcom_gpio := some false, backlit_gpio := some false,
          backlight_on := false, disp_gpio := some false, reset_gpio := some true,
          vdd_supply := some 0, vddio_supply := some 0 }
        ⟨[]⟩
      = ⟨{ width := 400, height := 240, power_state := SHARP_POWER_OFF, vcom_state := false,
           frame_count := 0, vcom_gpio := some false, backlit_gpio := some false,
           backlight_on := false, disp_gpio := some false, reset_gpio := some true,
           vdd_supply := some 0, vddio_supply := some 0,
           hw_log := [hw_event.regulator_enable supply.vdd_supply 0,
                      hw_event.regulator_enable supply.vddio_supply (-5),
                      hw_event.regulator_disable supply.vdd_supply] },
          ⟨[]⟩, some (-5)⟩ :=
  ((power_on_rail_failure { mono_cutoff := 127, mono_invert := false }
    { spi_ret := fun _ => 0, kzalloc_ok := true, vdd_enable_ret := 0, vddio_enable_ret := -5 }
    { width := 400, height := 240, power_state := SHARP_POWER_OFF, vcom_state := false,
      frame_count := 0, vcom_gpio := some false, backlit_gpio := some false,
      backlight_on := false, disp_gpio := some false, reset_gpio := some true,
      vdd_supply := some 0, vddio_supply := some 0 }
    ⟨[]⟩ 0 0 rfl rfl rfl).1 rfl (by decide)).1

/-- With a monotonic clock and times in the signed 64-bit range, `idle_time_ms`
is the number of whole milliseconds elapsed. -/
theorem idle_time_ms_eq (now last_update : Int) (hmono : last_update ≤ now)
    (hrange : now - last_update < 2 ^ 63) :
    idle_time_ms now last_update = ((now - last_update) / 1000000).toNat := by
  have h0 : (0 : Int) ≤ now - last_update := by omega
  have h1 : Int.tdiv (now - last_update) 1000000 = (now - last_update) / 1000000 :=
    Int.tdiv_eq_ediv h0 (by decide)
  have h2 : (0 : Int) ≤ (now - last_update) / 1000000 := by omega
  have h3 : (now - last_update) / 1000000 < 2 ^ 64 := by
    have : (2 : Int) ^ 63 = 9223372036854775808 := by norm_num
    have : (2 : Int) ^ 64 = 18446744073709551616 := by norm_num
    omega
  rw [idle_time_ms, h1, Int.emod_eq_of_lt h2 h3]

/-- C15 (as amended). With the auto-power-save flag set, idle_timeout = T and
the state ON, one run of the idle check moves the state to STANDBY (stopping the
VCOM timer, not rescheduling) if the whole milliseconds elapsed since the last
recorded activity are strictly more than T, and leaves the state ON, queueing
itself again after T/4, if they are at most T; with the flag unset, or the state
not ON, the check changes nothing and does not reschedule.  The clock is
monotonic, times are signed 64-bit nanoseconds, and the work is not queued while
its function runs. -/
theorem idle_check_strict (p : Params) (env : Env) (sdev : sharp_drm_device) (bus : Bus)
    (hmono : sdev.last_update ≤ env.ktime) (hrange : env.ktime - sdev.last_update < 2 ^ 63)
    (hidle : sdev.power_save_work = none) :
    (p.auto_power_save = true → sdev.power_state = SHARP_POWER_ON →
      p.idle_timeout < ((env.ktime - sdev.last_update) / 1000000).toNat →
        (sharp_auto_power_save_work p env sdev bus).sdev.power_state = SHARP_POWER_STANDBY ∧
        (sharp_auto_power_save_work p env sdev bus).sdev.vcom_timer_pending = false ∧
        (sharp_auto_power_save_work p env sdev bus).sdev.power_save_work = none ∧
        (sharp_auto_power_save_work p env sdev bus).bus = bus) ∧
    (p.auto_power_save = true → sdev.power_state = SHARP_POWER_ON →
      ((env.ktime - sdev.last_update) / 1000000).toNat ≤ p.idle_timeout →
        sharp_auto_power_save_work p env sdev bus
          = ⟨{ sdev with power_save_work := some (p.idle_timeout / 4) }, bus, none⟩ ∧
        (sharp_auto_power_save_work p env sdev bus).sdev.power_state = SHARP_POWER_ON) ∧
    (p.auto_power_save = false ∨ sdev.power_state ≠ SHARP_POWER_ON →
      sharp_auto_power_save_work p env sdev bus = ⟨sdev, bus, none⟩) := by
  have hms := idle_time_ms_eq env.ktime sdev.last_update hmono hrange
  refine ⟨?_, ?_, ?_⟩
  · intro hflag hon hgt
    have hst : sharp_auto_power_save_work p env sdev bus
        = ⟨(sharp_drm_power_standby sdev bus).sdev, (sharp_drm_power_standby sdev bus).bus,
            none⟩ := by
      simp [sharp_auto_power_save_work, hflag, hon, hms, hgt]
    have hne : ¬ (sdev.power_state = SHARP_POWER_STANDBY) := by rw [hon]; decide
    rw [hst]
    refine ⟨power_standby_state sdev bus, ?_, ?_, ?_⟩
    · simp only [sharp_drm_power_standby, hne, if_false]
      split <;> simp [gpiod_set_value, del_timer]
    · simp only [sharp_drm_power_standby, hne, if_false]
      split <;> simp [gpiod_set_value, del_timer, hidle]
    · simp only [sharp_drm_power_standby, hne, if_false]
  · intro hflag hon hle
    have hn : ¬ (p.idle_timeout < ((env.ktime - sdev.last_update) / 1000000).toNat) := by omega
    have hst : sharp_auto_power_save_work p env sdev bus
        = ⟨{ sdev with power_save_work := some (p.idle_timeout / 4) }, bus, none⟩ := by
      simp [sharp_auto_power_save_work, hflag, hon, hms, hn, schedule_delayed_work, hidle]
    rw [hst]
    exact ⟨rfl, hon⟩
  · intro h
    simp only [sharp_auto_power_save_work]
    rw [if_pos h]

/-- C15 witness: T = 30000 ms, last activity at 0, the clock at 30001 ms. -/
theorem idle_check_strict_witness :
    (sharp_auto_power_save_work
        { mono_cutoff := 127, mono_invert := false, auto_power_save := true,
          idle_timeout := 30000 }
        { spi_ret := fun _ => 0, kzalloc_ok := true, ktime := 30001000000 }
        { width := 400, height := 240, power_state := SHARP_POWER_ON, vcom_state := false,
          frame_count := 0, vcom_gpio := none, backlit_gpio := none, backlight_on := false,
          vcom_timer_pending := true, last_update := 0 }
        ⟨[]⟩).sdev.power_state = SHARP_POWER_STANDBY :=
  ((idle_check_strict
    { mono_cutoff := 127, mono_invert := false, auto_power_save := true, idle_timeout := 30000 }
    { spi_ret := fun _ => 0, kzalloc_ok := true, ktime := 30001000000 }
    { width := 400, height := 240, power_state := SHARP_POWER_ON, vcom_state := false,
      frame_count := 0, vcom_gpio := none, backlit_gpio := none, backlight_on := false,
      vcom_timer_pending := true, last_update := 0 }
    ⟨[]⟩ (by decide) (by decide) rfl).1 rfl rfl (by decide)).1

/-- C15 (as stated) fails. With the flag set, T = 30000 ms and the state ON, a
run of the idle check exactly 30000 ms after the last activity (elapsed = T)
leaves the state ON and queues the next check after 7500 ms; so does a run
30000.999999 ms after it. -/
theorem idle_check_at_timeout_stays_on :
    (sharp_auto_power_save_work
        { mono_cutoff := 127, mono_invert := false, auto_power_save := true,
          idle_timeout := 30000 }
        { spi_ret := fun _ => 0, kzalloc_ok := true, ktime := 30000000000 }
        { width := 400, height := 240, power_state := SHARP_POWER_ON, vcom_state := false,
          frame_count := 0, vcom_gpio := none, backlit_gpio := none, backlight_on := false,
          vcom_timer_pending := true, last_update := 0 }
        ⟨[]⟩).sdev.power_state = SHARP_POWER_ON ∧
    (sharp_auto_power_save_work
        { mono_cutoff := 127, mono_invert := false, auto_power_save := true,
          idle_timeout := 30000 }
        { spi_ret := fun _ => 0, kzalloc_ok := true, ktime := 30000000000 }
        { width := 400, height := 240, power_state := SHARP_POWER_ON, vcom_state := false,
          frame_count := 0, vcom_gpio := none, backlit_gpio := none, backlight_on := false,
          vcom_timer_pending := true, last_update := 0 }
        ⟨[]⟩).sdev.power_save_work = some 7500 ∧
    (sharp_auto_power_save_work
        { mono_cutoff := 127, mono_invert := false, auto_power_save := true,
          idle_timeout := 30000 }
        { spi_ret := fun _ => 0, kzalloc_ok := true, ktime := 30000999999 }
        { width := 400, height := 240, power_state := SHARP_POWER_ON, vcom_state := false,
          frame_count := 0, vcom_gpio := none, backlit_gpio := none, backlight_on := false,
          vcom_timer_pending := true, last_update := 0 }
        ⟨[]⟩).sdev.power_state = SHARP_POWER_ON := by
  decide

/-- A resume from STANDBY ends in state ON with the VCOM timer pending, the
call of `mod_timer` being the last hardware call made. -/
theorem power_resume_from_standby (p : Params) (sdev : sharp_drm_device) (bus : Bus)
    (h : sdev.power_state = SHARP_POWER_STANDBY) :
    (sharp_drm_power_resume p sdev bus).sdev.power_state = SHARP_POWER_ON ∧
    (sharp_drm_power_resume p sdev bus).sdev.vcom_timer_pending = true ∧
    (sharp_drm_power_resume p sdev bus).sdev.hw_log.getLast? = some hw_event.mod_timer ∧
    (sharp_drm_power_resume p sdev bus).sdev.last_update = sdev.last_update ∧
    (sharp_drm_power_resume p sdev bus).bus = bus := by
  simp only [sharp_drm_power_resume, h, ne_eq, not_true_eq_false, if_false]
  split <;> simp [mod_timer, gpiod_set_value]

/-- Queueing or cancelling the idle check leaves power state, VCOM timer,
activity time and hardware trace alone. -/
theorem requeue_fields (sdev : sharp_drm_device) (ms : Nat) :
    (schedule_delayed_work (cancel_delayed_work sdev) ms).power_state = sdev.power_state ∧
    (schedule_delayed_work (cancel_delayed_work sdev) ms).vcom_timer_pending
      = sdev.vcom_timer_pending ∧
    (schedule_delayed_work (cancel_delayed_work sdev) ms).last_update = sdev.last_update ∧
    (schedule_delayed_work (cancel_delayed_work sdev) ms).hw_log = sdev.hw_log := by
  simp [schedule_delayed_work, cancel_delayed_work]

/-- The activity notification, step by step. -/
theorem update_activity_unfold (p : Params) (env : Env) (sdev : sharp_drm_device) (bus : Bus) :
    sharp_drm_power_update_activity p env sdev bus
      = ⟨(if p.auto_power_save = true then
            schedule_delayed_work
              (cancel_delayed_work
                (if sdev.power_state = SHARP_POWER_STANDBY then
                  sharp_drm_power_resume p { sdev with last_update := env.ktime } bus
                else ⟨{ sdev with last_update := env.ktime }, bus, some 0⟩).sdev)
              (p.idle_timeout / 4)
          else
            (if sdev.power_state = SHARP_POWER_STANDBY then
              sharp_drm_power_resume p { sdev with last_update := env.ktime } bus
            else ⟨{ sdev with last_update := env.ktime }, bus, some 0⟩).sdev),
          (if sdev.power_state = SHARP_POWER_STANDBY then
            sharp_drm_power_resume p { sdev with last_update := env.ktime } bus
          else ⟨{ sdev with last_update := env.ktime }, bus, some 0⟩).bus,
          none⟩ := rfl

/-- C16. For every device state, after an activity notification the
last-activity timestamp equals the current time, the power state is ON if it was
STANDBY or ON before, and it is still OFF if it was OFF before; when the state
was STANDBY the VCOM timer has been restarted. -/
theorem update_activity_spec (p : Params) (env : Env) (sdev : sharp_drm_device) (bus : Bus) :
    (sharp_drm_power_update_activity p env sdev bus).sdev.last_update = env.ktime ∧
    (sdev.power_state = SHARP_POWER_STANDBY ∨ sdev.power_state = SHARP_POWER_ON →
      (sharp_drm_power_update_activity p env sdev bus).sdev.power_state = SHARP_POWER_ON) ∧
    (sdev.power_state = SHARP_POWER_OFF →
      (sharp_drm_power_update_activity p env sdev bus).sdev.power_state = SHARP_POWER_OFF) ∧
    (sdev.power_state = SHARP_POWER_STANDBY →
      (sharp_drm_power_update_activity p env sdev bus).sdev.vcom_timer_pending = true ∧
      (sharp_drm_power_update_activity p env sdev bus).sdev.hw_log.getLast?
        = some hw_event.mod_timer) := by
  have hstandby : sdev.power_state = SHARP_POWER_STANDBY →
      (sharp_drm_power_update_activity p env sdev bus).sdev.last_update = env.ktime ∧
      (sharp_drm_power_update_activity p env sdev bus).sdev.power_state = SHARP_POWER_ON ∧
      (sharp_drm_power_update_activity p env sdev bus).sdev.vcom_timer_pending = true ∧
      (sharp_drm_power_update_activity p env sdev bus).sdev.hw_log.getLast?
        = some hw_event.mod_timer := by
    intro h
    have hr := power_resume_from_standby p { sdev with last_update := env.ktime } bus h
    rw [update_activity_unfold, if_pos h]
    simp only []
    split
    · have hq := requeue_fields
        (sharp_drm_power_resume p { sdev with last_update := env.ktime } bus).sdev
        (p.idle_timeout / 4)
      rw [hq.1, hq.2.1, hq.2.2.1, hq.2.2.2]
      exact ⟨hr.2.2.2.1, hr.1, hr.2.1, hr.2.2.1⟩
    · exact ⟨hr.2.2.2.1, hr.1, hr.2.1, hr.2.2.1⟩
  have hother : sdev.power_state ≠ SHARP_POWER_STANDBY →
      (sharp_drm_power_update_activity p env sdev bus).sdev.last_update = env.ktime ∧
      (sharp_drm_power_update_activity p env sdev bus).sdev.power_state = sdev.power_state := by
    intro h
    rw [update_activity_unfold, if_neg h]
    simp only []
    split
    · have hq := requeue_fields { sdev with last_update := env.ktime } (p.idle_timeout / 4)
      rw [hq.1, hq.2.2.1]
      exact ⟨rfl, rfl⟩
    · exact ⟨rfl, rfl⟩
  refine ⟨?_, ?_, ?_, ?_⟩
  · by_cases h : sdev.power_state = SHARP_POWER_STANDBY
    · exact (hstandby h).1
    · exact (hother h).1
  · intro h
    rcases h with h | h
    · exact (hstandby h).2.1
    · rw [(hother (by rw [h]; decide)).2, h]
  · intro h
    rw [(hother (by rw [h]; decide)).2, h]
  · intro h
    exact ⟨(hstandby h).2.2.1, (hstandby h).2.2.2⟩

/-- C17. The power transitions are idempotent no-ops outside their source
state: power_off called in OFF, standby called in STANDBY, resume called in any
state other than STANDBY, and power_on called in ON each return success (0),
leave the whole device state unchanged and issue no bus transaction;
consequently applying power_off twice, or standby twice, gives the same state as
applying it once. -/
theorem power_transitions_idempotent (p : Params) (env env2 : Env) (sdev : sharp_drm_device)
    (bus : Bus) :
    (sdev.power_state = SHARP_POWER_OFF →
      sharp_drm_power_off p env sdev bus = ⟨sdev, bus, some 0⟩) ∧
    (sdev.power_state = SHARP_POWER_STANDBY →
      sharp_drm_power_standby sdev bus = ⟨sdev, bus, some 0⟩) ∧
    (sdev.power_state ≠ SHARP_POWER_STANDBY →
      sharp_drm_power_resume p sdev bus = ⟨sdev, bus, some 0⟩) ∧
    (sdev.power_state = SHARP_POWER_ON →
      sharp_drm_power_on p env sdev bus = ⟨sdev, bus, some 0⟩) ∧
    (sharp_drm_power_off p env2 (sharp_drm_power_off p env sdev bus).sdev
        (sharp_drm_power_off p env sdev bus).bus
      = ⟨(sharp_drm_power_off p env sdev bus).sdev, (sharp_drm_power_off p env sdev bus).bus,
          some 0⟩) ∧
    (sharp_drm_power_standby (sharp_drm_power_standby sdev bus).sdev
        (sharp_drm_power_standby sdev bus).bus
      = ⟨(sharp_drm_power_standby sdev bus).sdev, (sharp_drm_power_standby sdev bus).bus,
          some 0⟩) := by
  have hoff : ∀ (e : Env) (s : sharp_drm_device) (b : Bus), s.power_state = SHARP_POWER_OFF →
      sharp_drm_power_off p e s b = ⟨s, b, some 0⟩ := by
    intro e s b h
    simp [sharp_drm_power_off, h]
  have hsb : ∀ (s : sharp_drm_device) (b : Bus), s.power_state = SHARP_POWER_STANDBY →
      sharp_drm_power_standby s b = ⟨s, b, some 0⟩ := by
    intro s b h
    simp [sharp_drm_power_standby, h]
  refine ⟨hoff env sdev bus, hsb sdev bus, ?_, ?_, ?_, ?_⟩
  · intro h
    simp [sharp_drm_power_resume, h]
  · intro h
    simp [sharp_drm_power_on, h]
  · exact hoff env2 _ _ (power_off_state p env sdev bus)
  · exact hsb _ _ (power_standby_state sdev bus)

/-! ## Format decoding -/

/-- C21. For every pixel-format tag other than XRGB8888, ARGB8888 and RGB565,
decoding is total: an 8-bit sample g is decoded to the pixel
(g << 16) | (g << 8) | g; because the luma weights 77+151+28 sum to 256 its gray
value is exactly g, so with inversion off the reduced bit is 1 exactly when
g > cutoff. -/
theorem grayscale_fallback (p : Params) (format g : Nat)
    (hx : format ≠ DRM_FORMAT_XRGB8888) (ha : format ≠ DRM_FORMAT_ARGB8888)
    (h5 : format ≠ DRM_FORMAT_RGB565) (hg : g < 256) :
    extract_pixel format g = (g <<< 16) ||| (g <<< 8) ||| g ∧
    (g * 77 + g * 151 + g * 28) >>> 8 = g ∧
    (p.mono_invert = false →
      rgb_to_mono_simple p (extract_pixel format g) = if g > p.mono_cutoff then 1 else 0) := by
  have hdec : extract_pixel format g = (g <<< 16) ||| (g <<< 8) ||| g := by
    simp [extract_pixel, hx, ha, h5, Nat.mod_eq_of_lt hg]
  have hgray : (g * 77 + g * 151 + g * 28) >>> 8 = g := by
    rw [Nat.shiftRight_eq_div_pow]; omega
  refine ⟨hdec, hgray, ?_⟩
  intro hinv
  obtain ⟨hr, hgc, hb⟩ := rgb_channels g g g hg hg hg
  have hmod : g % 65536 = g := by omega
  rw [hdec]
  simp only [rgb_to_mono_simple, hr, hgc, hb, hgray, hmod, hinv]
  simp

/-- C21 witness: the tag 0x20203852 ('R8  ') and the sample 200. -/
theorem grayscale_fallback_witness :
    extract_pixel 0x20203852 200 = (200 <<< 16) ||| (200 <<< 8) ||| 200 ∧
    (200 * 77 + 200 * 151 + 200 * 28) >>> 8 = 200 ∧
    ((false : Bool) = false →
      rgb_to_mono_simple { mono_cutoff := 127, mono_invert := false }
          (extract_pixel 0x20203852 200)
        = if 200 > 127 then 1 else 0) :=
  grayscale_fallback { mono_cutoff := 127, mono_invert := false } 0x20203852 200
    (by decide) (by decide) (by decide) (by decide)

/-- A 16-bit value assembled from its 5-6-5 fields. -/
theorem rgb565_compose (r5 g6 b5 : Nat) (hg : g6 < 64) (hb : b5 < 32) :
    (r5 <<< 11) ||| (g6 <<< 5) ||| b5 = r5 * 2048 + g6 * 32 + b5 := by
  have h1 : 2 ^ 5 * g6 + b5 = 2 ^ 5 * g6 ||| b5 := Nat.mul_add_lt_is_or (by omega) g6
  have h2 : 2 ^ 11 * r5 + (2 ^ 5 * g6 + b5) = 2 ^ 11 * r5 ||| (2 ^ 5 * g6 + b5) :=
    Nat.mul_add_lt_is_or (by omega) r5
  rw [Nat.lor_assoc, Nat.shiftLeft_eq, Nat.shiftLeft_eq, Nat.mul_comm r5, Nat.mul_comm g6,
    ← h1, ← h2]
  omega

/-- C22. For every 16-bit RGB565 value with fields r5, g6, b5, the decoded
24-bit pixel has R = r5*255/31, G = g6*255/63, B = b5*255/31 (integer division),
each within 0..255 so that the store into a byte truncates nothing, each
monotone in its field, with field 0 mapping to 0 and the field maximum (31 or
63) mapping to 255 - so 0xFFFF decodes to 0xFFFFFF and 0x0000 to 0x000000. -/
theorem rgb565_expand (r5 g6 b5 : Nat) (hr : r5 < 32) (hg : g6 < 64) (hb : b5 < 32) :
    extract_pixel DRM_FORMAT_RGB565 ((r5 <<< 11) ||| (g6 <<< 5) ||| b5)
      = ((r5 * 255 / 31) <<< 16) ||| ((g6 * 255 / 63) <<< 8) ||| (b5 * 255 / 31) ∧
    (r5 * 255 / 31 ≤ 255 ∧ g6 * 255 / 63 ≤ 255 ∧ b5 * 255 / 31 ≤ 255) ∧
    (∀ a b : Nat, a ≤ b → a * 255 / 31 ≤ b * 255 / 31) ∧
    (∀ a b : Nat, a ≤ b → a * 255 / 63 ≤ b * 255 / 63) ∧
    (0 * 255 / 31 = 0 ∧ 0 * 255 / 63 = 0 ∧ 31 * 255 / 31 = 255 ∧ 63 * 255 / 63 = 255) ∧
    extract_pixel DRM_FORMAT_RGB565 0xFFFF = 0xFFFFFF ∧
    extract_pixel DRM_FORMAT_RGB565 0x0000 = 0x000000 := by
  refine ⟨?_, ⟨by omega, by omega, by omega⟩, ?_, ?_, by decide, by decide, by decide⟩
  · have hfmt1 : ¬ (DRM_FORMAT_RGB565 = DRM_FORMAT_XRGB8888 ∨
        DRM_FORMAT_RGB565 = DRM_FORMAT_ARGB8888) := by decide
    have h1F : ∀ n : Nat, n &&& 0x1F = n % 32 := fun n => Nat.and_pow_two_sub_one_eq_mod n 5
    have h3F : ∀ n : Nat, n &&& 0x3F = n % 64 := fun n => Nat.and_pow_two_sub_one_eq_mod n 6
    have hrf : (r5 * 2048 + g6 * 32 + b5) % 65536 / 2 ^ 11 % 32 = r5 := by
      have : (2 : Nat) ^ 11 = 2048 := rfl
      rw [this]; omega
    have hgf : (r5 * 2048 + g6 * 32 + b5) % 65536 / 2 ^ 5 % 64 = g6 := by
      have : (2 : Nat) ^ 5 = 32 := rfl
      rw [this]; omega
    have hbf : (r5 * 2048 + g6 * 32 + b5) % 65536 % 32 = b5 := by omega
    have hr8 : r5 * 255 / 31 % 256 = r5 * 255 / 31 := by omega
    have hg8 : g6 * 255 / 63 % 256 = g6 * 255 / 63 := by omega
    have hb8 : b5 * 255 / 31 % 256 = b5 * 255 / 31 := by omega
    rw [rgb565_compose r5 g6 b5 hg hb]
    simp only [extract_pixel, hfmt1, if_false, if_true, h1F, h3F, Nat.shiftRight_eq_div_pow,
      hrf, hgf, hbf, hr8, hg8, hb8]
  · intro a b hab
    exact Nat.div_le_div_right (Nat.mul_le_mul_right 255 hab)
  · intro a b hab
    exact Nat.div_le_div_right (Nat.mul_le_mul_right 255 hab)

/-- C22 witness: the fields 16, 32, 8. -/
theorem rgb565_expand_witness :
    extract_pixel DRM_FORMAT_RGB565 ((16 <<< 11) ||| (32 <<< 5) ||| 8)
      = ((16 * 255 / 31) <<< 16) ||| ((32 * 255 / 63) <<< 8) ||| (8 * 255 / 31) :=
  (rgb565_expand 16 32 8 (by decide) (by decide) (by decide)).1

/-! ## Row addresses of the monochrome line write -/

/-- C23. Row numbering is 1-based on the wire: for every 0-based row r <= 126
below the panel height, the address byte transmitted by the monochrome line
write has value r+1; in particular row 0 is sent as address 1 and row 126 as
address byte 0x7F. -/
theorem jdi_write_line_address_one_based (env : Env) (sdev : sharp_drm_device) (bus : Bus)
    (r : Nat) (line : List Nat) (hrow : r < sdev.height) (h126 : r ≤ 126) :
    (jdi_write_line env sdev bus r (some line)).bus.calls
      = bus.calls ++
          [([⟨[0x80], 1⟩, ⟨[r + 1], 1⟩, ⟨line, (sdev.width + 7) % 4294967296 / 8⟩,
             ⟨[0x00], 1⟩],
            env.spi_ret bus.calls.length)] ∧
    (r = 0 → r + 1 = 1) ∧ (r = 126 → r + 1 = 0x7F) := by
  refine ⟨?_, fun h => by omega, fun h => by omega⟩
  rw [jdi_write_line_eq env sdev bus r line hrow, mono_line_message,
    Nat.mod_eq_of_lt (show r + 1 < 256 by omega)]

/-- C23 witness: row 126 of the 400x240 panel goes out with address byte 0x7F. -/
theorem jdi_write_line_address_one_based_witness :
    (jdi_write_line { spi_ret := fun _ => 0, kzalloc_ok := true }
        { width := 400, height := 240, power_state := SHARP_POWER_ON, vcom_state := false,
          frame_count := 0, vcom_gpio := none, backlit_gpio := none, backlight_on := false }
        ⟨[]⟩ 126 (some [])).bus.calls
      = [] ++ [([⟨[0x80], 1⟩, ⟨[126 + 1], 1⟩, ⟨[], (400 + 7) % 4294967296 / 8⟩,
                 ⟨[0x00], 1⟩], 0)] :=
  (jdi_write_line_address_one_based { spi_ret := fun _ => 0, kzalloc_ok := true }
    { width := 400, height := 240, power_state := SHARP_POWER_ON, vcom_state := false,
      frame_count := 0, vcom_gpio := none, backlit_gpio := none, backlight_on := false }
    ⟨[]⟩ 126 [] (by decide) (by decide)).1

/-- C26. The address byte of the monochrome line write is (row+1) mod 256, an
8-bit truncation with no 0x7F mask: for every panel of height <= 255 every row
below the height is sent with address byte exactly row+1 and any two distinct
rows get distinct address bytes; for row 255 the address byte wraps to 0. -/
theorem jdi_write_line_address_mod_256 (env : Env) (sdev : sharp_drm_device) (bus : Bus) :
    (∀ (row : Nat) (line : List Nat), row < sdev.height →
      (jdi_write_line env sdev bus row (some line)).bus.calls
        = bus.calls ++
            [([⟨[0x80], 1⟩, ⟨[(row + 1) % 256], 1⟩,
               ⟨line, (sdev.width + 7) % 4294967296 / 8⟩,
               ⟨[0x00], 1⟩], env.spi_ret bus.calls.length)]) ∧
    (sdev.height ≤ 255 → ∀ row : Nat, row < sdev.height → (row + 1) % 256 = row + 1) ∧
    (sdev.height ≤ 255 → ∀ row1 row2 : Nat, row1 < sdev.height → row2 < sdev.height →
      (row1 + 1) % 256 = (row2 + 1) % 256 → row1 = row2) ∧
    (255 < sdev.height → ∀ line : List Nat,
      (jdi_write_line env sdev bus 255 (some line)).bus.calls
        = bus.calls ++
            [([⟨[0x80], 1⟩, ⟨[0], 1⟩, ⟨line, (sdev.width + 7) % 4294967296 / 8⟩,
               ⟨[0x00], 1⟩],
              env.spi_ret bus.calls.length)]) := by
  refine ⟨?_, ?_, ?_, ?_⟩
  · intro row line hrow
    rw [jdi_write_line_eq env sdev bus row line hrow, mono_line_message]
  · intro h row hrow
    omega
  · intro h row1 row2 h1 h2 he
    omega
  · intro h line
    rw [jdi_write_line_eq env sdev bus 255 line h, mono_line_message]

/-! ## Test pattern -/

/-- Records of `n + 1` pattern rows: the first row, then the `n` rows after it. -/
theorem pattern_records_succ (env : Env) (sdev : sharp_drm_device) (pattern : Int)
    (base y n : Nat) :
    pattern_records env sdev pattern base y (n + 1)
      = (mono_line_message sdev y ((test_pattern_line sdev pattern y).getD []),
            env.spi_ret base)
          :: pattern_records env sdev pattern (base + 1) (y + 1) n := by
  simp only [pattern_records, List.range_succ_eq_map, List.map_cons, List.map_map,
    Nat.add_zero]
  congr 1
  apply List.map_congr_left
  intro i _
  simp only [Function.comp, Nat.succ_eq_add_one]
  rw [show y + (i + 1) = y + 1 + i by omega, show base + (i + 1) = base + 1 + i by omega]

/-- When no row stores past the line buffer, the row loop of the test pattern
sends every row, whatever the writes return. -/
theorem test_pattern_rows_eq (env : Env) (sdev : sharp_drm_device) (pattern : Int)
    (hsome : ∀ y, test_pattern_line sdev pattern y ≠ none) :
    ∀ (n y : Nat) (bus : Bus), y + n ≤ sdev.height →
      test_pattern_rows env sdev pattern n y bus
        = (⟨bus.calls ++ pattern_records env sdev pattern bus.calls.length y n⟩, false) := by
  intro n
  induction n with
  | zero => intro y bus _; simp [test_pattern_rows, pattern_records]
  | succ n ih =>
    intro y bus hy
    rw [test_pattern_rows]
    split
    · rename_i hnone
      exact absurd hnone (hsome y)
    · rename_i line hline
      rw [jdi_write_line_eq env sdev bus y _ (by omega)]
      simp only []
      rw [ih (y + 1) _ (by omega), pattern_records_succ, hline]
      simp only [List.length_append, List.length_singleton, List.append_assoc,
        List.singleton_append, Option.getD_some]

/-- No bit is set in a zeroed buffer. -/
theorem testBit_replicate_zero (n i k : Nat) :
    ((List.replicate n 0).getD i 0).testBit k = false := by
  rw [List.getD_eq_getElem?_getD]
  by_cases h : i < n
  · rw [List.getElem?_eq_getElem (by simpa using h)]; simp
  · rw [List.getElem?_eq_none (by simpa using h)]; simp

/-- The first and the last row of the border pattern are solid. -/
theorem border_edge_row (sdev : sharp_drm_device) (pattern : Int) (y : Nat)
    (hp : pattern < 0 ∨ 3 < pattern) (hy : y = 0 ∨ y = sdev.height - 1) :
    test_pattern_line sdev pattern y
      = some (List.replicate ((sdev.width + 7) % 4294967296 / 8) 0xFF) := by
  have h0 : pattern ≠ 0 := by omega
  have h1 : pattern ≠ 1 := by omega
  have h2 : pattern ≠ 2 := by omega
  have h3 : pattern ≠ 3 := by omega
  simp only [test_pattern_line, h0, h1, h2, h3, if_false, hy, if_true]

/-- An interior row of the border pattern, as the code builds it when the line
buffer has a first byte. -/
theorem border_inner_row_eq (sdev : sharp_drm_device) (pattern : Int) (y : Nat)
    (hp : pattern < 0 ∨ 3 < pattern) (hy0 : 0 < y) (hy1 : y < sdev.height - 1)
    (hw : 1 ≤ sdev.width) (hwb : sdev.width + 7 < 4294967296) :
    test_pattern_line sdev pattern y
      = some (if 8 < sdev.width then
          set_bit (set_bit (List.replicate ((sdev.width + 7) / 8) 0) (0 / 8) (7 - 0 % 8))
            ((sdev.width - 1) / 8) (7 - (sdev.width - 1) % 8)
        else set_bit (List.replicate ((sdev.width + 7) / 8) 0) (0 / 8) (7 - 0 % 8)) := by
  have h0 : pattern ≠ 0 := by omega
  have h1 : pattern ≠ 1 := by omega
  have h2 : pattern ≠ 2 := by omega
  have h3 : pattern ≠ 3 := by omega
  have hy : ¬ (y = 0 ∨ y = sdev.height - 1) := by omega
  have hlast : (sdev.width + 7) / 8 - 1 = (sdev.width - 1) / 8 := by omega
  have hpos : 0 < (sdev.width + 7) / 8 := by omega
  simp only [test_pattern_line, h0, h1, h2, h3, if_false, hy, hlast, store_bit,
    Nat.mod_eq_of_lt hwb, List.length_replicate, hpos, if_true]
  by_cases h8 : 8 < sdev.width
  · have : (sdev.width + 7) / 8 > 1 := by omega
    simp only [this, h8, if_true]
  · have : ¬ ((sdev.width + 7) / 8 > 1) := by omega
    simp only [this, h8, if_false]

/-- No row of the border pattern stores past the line buffer of a panel that is
at least 1 pixel wide and whose `width + 7` fits in a `u32`. -/
theorem border_line_ne_none (sdev : sharp_drm_device) (pattern : Int)
    (hp : pattern < 0 ∨ 3 < pattern) (hw : 1 ≤ sdev.width)
    (hwb : sdev.width + 7 < 4294967296) (y : Nat) :
    test_pattern_line sdev pattern y ≠ none := by
  have h0 : pattern ≠ 0 := by omega
  have h1 : pattern ≠ 1 := by omega
  have h2 : pattern ≠ 2 := by omega
  have h3 : pattern ≠ 3 := by omega
  have hpos : 0 < (sdev.width + 7) / 8 := by omega
  simp only [test_pattern_line, h0, h1, h2, h3, if_false, store_bit,
    Nat.mod_eq_of_lt hwb, List.length_replicate, hpos, if_true]
  repeat' split
  all_goals simp

/-- The pixels lit in an interior row of the border pattern: the leftmost one,
and the rightmost one when the line has more than one byte. -/
theorem border_inner_row_bits (sdev : sharp_drm_device) (pattern : Int) (y x : Nat)
    (hp : pattern < 0 ∨ 3 < pattern) (hy0 : 0 < y) (hy1 : y < sdev.height - 1)
    (hw : 1 ≤ sdev.width) (hwb : sdev.width + 7 < 4294967296) :
    line_bit ((test_pattern_line sdev pattern y).getD []) x
      = if x = 0 ∨ (8 < sdev.width ∧ x = sdev.width - 1) then 1 else 0 := by
  have hlen : 0 / 8 < (List.replicate ((sdev.width + 7) / 8) 0).length := by
    simp only [List.length_replicate]; omega
  have hpos : 0 < (sdev.width + 7) / 8 := by omega
  rw [line_bit_eq, border_inner_row_eq sdev pattern y hp hy0 hy1 hw hwb, Option.getD_some]
  by_cases h8 : 8 < sdev.width
  · have hlen2 : (sdev.width - 1) / 8
        < (set_bit (List.replicate ((sdev.width + 7) / 8) 0) (0 / 8) (7 - 0 % 8)).length := by
      rw [length_set_bit, List.length_replicate]; omega
    rw [if_pos h8, testBit_set_bit, testBit_set_bit, testBit_replicate_zero]
    by_cases hx0 : x = 0
    · simp [hx0, hpos]
    · by_cases hx1 : x = sdev.width - 1
      · simp [hx1, h8, hlen2]
      · simp [hx0, hx1]
  · rw [if_neg h8, testBit_set_bit, testBit_replicate_zero]
    by_cases hx0 : x = 0
    · simp [hx0, hpos]
    · simp [hx0, h8]

/-- C24 (as amended). For the border test pattern (every pattern id outside
0..3) on a panel in state ON of width >= 1 with width + 7 < 2^32 and of any
height, with the line buffer allocated: every row is sent, in order, and no
store leaves the line buffer; the first and the last row are sent with every
payload byte 0xFF; every interior row is sent with the leftmost pixel (bit 7 of
byte 0) set, with the rightmost pixel (bit 7 - ((width-1) mod 8) of the last
byte) set as well when the line has more than one byte (width > 8), and with
all other pixel bits clear. -/
theorem test_pattern_border (env : Env) (sdev : sharp_drm_device) (bus : Bus) (pattern : Int)
    (hon : sdev.power_state = SHARP_POWER_ON) (hk : env.kzalloc_ok = true)
    (hp : pattern < 0 ∨ 3 < pattern) (hw : 1 ≤ sdev.width)
    (hwb : sdev.width + 7 < 4294967296) :
    (sharp_drm_test_pattern env sdev bus pattern).bus.calls
      = bus.calls ++ (List.range sdev.height).map (fun y =>
          (([⟨[0x80], 1⟩, ⟨[(y + 1) % 256], 1⟩,
             ⟨(test_pattern_line sdev pattern y).getD [], (sdev.width + 7) % 4294967296 / 8⟩,
             ⟨[0x00], 1⟩] : spi_message),
           env.spi_ret (bus.calls.length + y))) ∧
    (sharp_drm_test_pattern env sdev bus pattern).sdev = sdev ∧
    (∀ y, y < sdev.height → (y = 0 ∨ y = sdev.height - 1) →
      test_pattern_line sdev pattern y
        = some (List.replicate ((sdev.width + 7) / 8) 0xFF)) ∧
    (∀ y, 0 < y → y < sdev.height - 1 →
      ∃ line, test_pattern_line sdev pattern y = some line ∧
        line.length = (sdev.width + 7) / 8 ∧
        ∀ x, ((line.getD (x / 8) 0) >>> (7 - x % 8)) % 2
          = if x = 0 ∨ (8 < sdev.width ∧ x = sdev.width - 1) then 1 else 0) := by
  have hne : ¬ (sdev.power_state ≠ SHARP_POWER_ON) := by simp [hon]
  have hrows := test_pattern_rows_eq env sdev pattern
    (border_line_ne_none sdev pattern hp hw hwb) sdev.height 0 bus (by omega)
  refine ⟨?_, ?_, ?_, ?_⟩
  · simp only [sharp_drm_test_pattern, hne, if_false, hk, hrows]
    simp [pattern_records, mono_line_message]
  · simp only [sharp_drm_test_pattern, hne, if_false, hk, hrows]
    simp
  · intro y _ hy
    rw [border_edge_row sdev pattern y hp hy, Nat.mod_eq_of_lt hwb]
  · intro y hy0 hy1
    have hb := border_inner_row_bits sdev pattern y
    rw [border_inner_row_eq sdev pattern y hp hy0 hy1 hw hwb, Option.getD_some] at hb
    refine ⟨_, border_inner_row_eq sdev pattern y hp hy0 hy1 hw hwb, ?_, ?_⟩
    · split <;> simp [length_set_bit]
    · intro x
      exact hb x hp hy0 hy1 hw hwb

/-- C24 witness: pattern 4 on a 12x3 panel sends FF FF, 80 10, FF FF. -/
theorem test_pattern_border_witness :
    (sharp_drm_test_pattern { spi_ret := fun _ => 0, kzalloc_ok := true }
        { width := 12, height := 3, power_state := SHARP_POWER_ON, vcom_state := false,
          frame_count := 0, vcom_gpio := none, backlit_gpio := none, backlight_on := false }
        ⟨[]⟩ 4).bus.calls.map (fun c => wire_bytes c.1)
      = [some [0x80, 1, 0xFF, 0xFF, 0x00], some [0x80, 2, 0x80, 0x10, 0x00],
         some [0x80, 3, 0xFF, 0xFF, 0x00]] := by
  have h := (test_pattern_border { spi_ret := fun _ => 0, kzalloc_ok := true }
    { width := 12, height := 3, power_state := SHARP_POWER_ON, vcom_state := false,
      frame_count := 0, vcom_gpio := none, backlit_gpio := none, backlight_on := false }
    ⟨[]⟩ 4 rfl rfl (by decide) (by decide) (by decide)).1
  rw [h]
  decide

/-- C24 (as stated) fails. Pattern 4 on an 8x3 panel sends the interior row
with the payload byte 0x80: the leftmost pixel is set but the rightmost pixel
(pixel 7, bit 0 of the only byte) is clear. On a 4x3 panel the interior row is
0x80 as well, pixel 3 (bit 4) being clear. On a panel of width 0, and on one of
width 4294967295 (where (width + 7) / 8 wraps to 0), the line buffer has no
byte: the first row is sent with an empty payload and the interior row is never
sent, its left border being stored past the buffer. -/
theorem test_pattern_border_narrow_counterexample :
    ((sharp_drm_test_pattern { spi_ret := fun _ => 0, kzalloc_ok := true }
        { width := 8, height := 3, power_state := SHARP_POWER_ON, vcom_state := false,
          frame_count := 0, vcom_gpio := none, backlit_gpio := none, backlight_on := false }
        ⟨[]⟩ 4).bus.calls.map (fun c => wire_bytes c.1)
      = [some [0x80, 1, 0xFF, 0x00], some [0x80, 2, 0x80, 0x00], some [0x80, 3, 0xFF, 0x00]]) ∧
    (([0x80] : List Nat).getD (7 / 8) 0 >>> (7 - (8 - 1) % 8)) % 2 = 0 ∧
    ((sharp_drm_test_pattern { spi_ret := fun _ => 0, kzalloc_ok := true }
        { width := 4, height := 3, power_state := SHARP_POWER_ON, vcom_state := false,
          frame_count := 0, vcom_gpio := none, backlit_gpio := none, backlight_on := false }
        ⟨[]⟩ 4).bus.calls.map (fun c => wire_bytes c.1)
      = [some [0x80, 1, 0xFF, 0x00], some [0x80, 2, 0x80, 0x00], some [0x80, 3, 0xFF, 0x00]]) ∧
    (([0x80] : List Nat).getD (3 / 8) 0 >>> (7 - (4 - 1) % 8)) % 2 = 0 ∧
    ((sharp_drm_test_pattern { spi_ret := fun _ => 0, kzalloc_ok := true }
        { width := 0, height := 3, power_state := SHARP_POWER_ON, vcom_state := false,
          frame_count := 0, vcom_gpio := none, backlit_gpio := none, backlight_on := false }
        ⟨[]⟩ 4).bus.calls.map (fun c => wire_bytes c.1) = [some [0x80, 1, 0x00]]) ∧
    ((sharp_drm_test_pattern { spi_ret := fun _ => 0, kzalloc_ok := true }
        { width := 0, height := 3, power_state := SHARP_POWER_ON, vcom_state := false,
          frame_count := 0, vcom_gpio := none, backlit_gpio := none, backlight_on := false }
        ⟨[]⟩ 4).sdev.oob_store = true) ∧
    ((sharp_drm_test_pattern { spi_ret := fun _ => 0, kzalloc_ok := true }
        { width := 4294967295, height := 3, power_state := SHARP_POWER_ON,
          vcom_state := false, frame_count := 0, vcom_gpio := none, backlit_gpio := none,
          backlight_on := false }
        ⟨[]⟩ 4).bus.calls.map (fun c => wire_bytes c.1) = [some [0x80, 1, 0x00]]) ∧
    ((sharp_drm_test_pattern { spi_ret := fun _ => 0, kzalloc_ok := true }
        { width := 4294967295, height := 3, power_state := SHARP_POWER_ON,
          vcom_state := false, frame_count := 0, vcom_gpio := none, backlit_gpio := none,
          backlight_on := false }
        ⟨[]⟩ 4).sdev.oob_store = true) := by
  decide

/-! ## Payload length of the update's line writes -/

/-- When the source is at least as wide as the panel (and the panel's
`width + 7` fits in a `u32`), the payload transfer of every line write of an
update is exactly as long as the line buffer. -/
theorem update_payload_in_bounds (p : Params) (sdev : sharp_drm_device) (fb : drm_framebuffer)
    (px : Nat → Nat → Nat) (y : Nat) (h : sdev.width ≤ fb.width)
    (hw : sdev.width + 7 < 4294967296) :
    ∃ line, update_line p fb.format px (min fb.width sdev.width) y = some line ∧
      line.length = (sdev.width + 7) % 4294967296 / 8 := by
  rw [Nat.min_eq_right h]
  refine ⟨_, update_line_eq p fb.format px sdev.width y hw, ?_⟩
  rw [packed_row, length_packed_line, Nat.mod_eq_of_lt hw]

/-- C25 at the failing input. On a 16x1 panel in state ON, an update from a
white 8x1 frame allocates and packs a 1-byte line buffer (0xFF) and hands the
bus a payload transfer of 2 bytes over it: the transfer runs one byte past the
end of the buffer. -/
theorem update_payload_overreads_narrow_source :
    ((sharp_drm_update_display { mono_cutoff := 127, mono_invert := false }
        { spi_ret := fun _ => 0, kzalloc_ok := true }
        { width := 16, height := 1, power_state := SHARP_POWER_ON, vcom_state := false,
          frame_count := 0, vcom_gpio := none, backlit_gpio := none, backlight_on := false }
        ⟨[]⟩
        (some { width := 8, height := 1, format := DRM_FORMAT_XRGB8888,
                vaddr := some (fun _ _ => 0xFFFFFF) })).bus.calls
      = [([⟨[0x80], 1⟩, ⟨[1], 1⟩, ⟨[0xFF], 2⟩, ⟨[0x00], 1⟩], 0)]) ∧
    update_line { mono_cutoff := 127, mono_invert := false } DRM_FORMAT_XRGB8888
        (fun _ _ => 0xFFFFFF) (min 8 16) 0 = some [0xFF] ∧
    ([0xFF] : List Nat).length = 1 ∧
    (16 + 7) % 4294967296 / 8 = 2 ∧
    transfer_bytes ⟨[0xFF], 2⟩ = none ∧
    wire_bytes [⟨[0x80], 1⟩, ⟨[1], 1⟩, ⟨[0xFF], 2⟩, ⟨[0x00], 1⟩] = none := by
  decide

/-! ## VCOM timer and power state -/

/-- Driving a GPIO line leaves the VCOM timer alone. -/
@[simp] theorem gpiod_set_value_timer (sdev : sharp_drm_device) (line : gpio_line)
    (value : Bool) :
    (gpiod_set_value sdev line value).vcom_timer_pending = sdev.vcom_timer_pending := by
  cases line <;> rfl

/-- Enabling a rail leaves the power state and the VCOM timer alone. -/
@[simp] theorem regulator_enable_fields (sdev : sharp_drm_device) (rail : supply) (ret : Int) :
    (regulator_enable sdev rail ret).power_state = sdev.power_state ∧
    (regulator_enable sdev rail ret).vcom_timer_pending = sdev.vcom_timer_pending := by
  unfold regulator_enable
  cases rail <;> simp only [] <;> split <;> exact ⟨rfl, rfl⟩

/-- Disabling a rail leaves the power state and the VCOM timer alone. -/
@[simp] theorem regulator_disable_fields (sdev : sharp_drm_device) (rail : supply) :
    (regulator_disable sdev rail).power_state = sdev.power_state ∧
    (regulator_disable sdev rail).vcom_timer_pending = sdev.vcom_timer_pending := by
  cases rail <;> exact ⟨rfl, rfl⟩

/-- A power-on either ends in state ON with the VCOM timer armed, or leaves
power state and timer as they were. -/
theorem power_on_timer (p : Params) (env : Env) (sdev : sharp_drm_device) (bus : Bus) :
    ((sharp_drm_power_on p env sdev bus).sdev.power_state = SHARP_POWER_ON ∧
      (sharp_drm_power_on p env sdev bus).sdev.vcom_timer_pending = true) ∨
    ((sharp_drm_power_on p env sdev bus).sdev.power_state = sdev.power_state ∧
      (sharp_drm_power_on p env sdev bus).sdev.vcom_timer_pending
        = sdev.vcom_timer_pending) := by
  unfold sharp_drm_power_on
  split
  · exact Or.inr ⟨rfl, rfl⟩
  · simp only []
    split
    · refine Or.inr ?_
      split <;> simp
    · split
      · refine Or.inr ?_
        repeat' split
        all_goals simp
      · exact Or.inl ⟨rfl, rfl⟩

/-- A power-off either leaves everything as it was (state OFF) or ends in state
OFF with the VCOM timer stopped. -/
theorem power_off_timer (p : Params) (env : Env) (sdev : sharp_drm_device) (bus : Bus)
    (h : timer_matches_state sdev) :
    timer_matches_state (sharp_drm_power_off p env sdev bus).sdev := by
  unfold sharp_drm_power_off
  split
  · exact h
  · simp only [timer_matches_state]
    have hp : ∀ s : sharp_drm_device, s.vcom_timer_pending = false →
        ¬ (s.vcom_timer_pending = true) := by
      intro s hs; rw [hs]; decide
    constructor
    · intro ht
      exfalso
      revert ht
      apply hp
      repeat' split
      all_goals simp [del_timer]
    · intro hs
      exact absurd hs (by decide)

/-- A standby request keeps the timer matched with the state. -/
theorem power_standby_timer (sdev : sharp_drm_device) (bus : Bus)
    (h : timer_matches_state sdev) :
    timer_matches_state (sharp_drm_power_standby sdev bus).sdev := by
  unfold sharp_drm_power_standby
  split
  · exact h
  · simp only [timer_matches_state]
    constructor
    · intro ht
      exfalso
      revert ht
      split <;> simp [del_timer]
    · intro hs
      exact absurd hs (by decide)

/-- A resume keeps the timer matched with the state. -/
theorem power_resume_timer (p : Params) (sdev : sharp_drm_device) (bus : Bus)
    (h : timer_matches_state sdev) :
    timer_matches_state (sharp_drm_power_resume p sdev bus).sdev := by
  by_cases hs : sdev.power_state = SHARP_POWER_STANDBY
  · have hr := power_resume_from_standby p sdev bus hs
    simp only [timer_matches_state, hr.1, hr.2.1]
  · have : sharp_drm_power_resume p sdev bus = ⟨sdev, bus, some 0⟩ := by
      simp [sharp_drm_power_resume, hs]
    rw [this]
    exact h

/-- An activity notification keeps the timer matched with the state. -/
theorem update_activity_timer (p : Params) (env : Env) (sdev : sharp_drm_device) (bus : Bus)
    (h : timer_matches_state sdev) :
    timer_matches_state (sharp_drm_power_update_activity p env sdev bus).sdev := by
  have h1 : timer_matches_state { sdev with last_update := env.ktime } := h
  have h2 : timer_matches_state
      (if sdev.power_state = SHARP_POWER_STANDBY then
        sharp_drm_power_resume p { sdev with last_update := env.ktime } bus
      else ⟨{ sdev with last_update := env.ktime }, bus, some 0⟩).sdev := by
    split
    · exact power_resume_timer p _ bus h1
    · exact h1
  rw [update_activity_unfold]
  simp only []
  split
  · have hq := requeue_fields
      (if sdev.power_state = SHARP_POWER_STANDBY then
        sharp_drm_power_resume p { sdev with last_update := env.ktime } bus
      else ⟨{ sdev with last_update := env.ktime }, bus, some 0⟩).sdev (p.idle_timeout / 4)
    simp only [timer_matches_state, hq.1, hq.2.1]
    exact h2
  · exact h2

/-- A frame update leaves power state and VCOM timer alone. -/
theorem update_display_timer (p : Params) (env : Env) (sdev : sharp_drm_device) (bus : Bus)
    (fb : Option drm_framebuffer) :
    (sharp_drm_update_display p env sdev bus fb).sdev.power_state = sdev.power_state ∧
    (sharp_drm_update_display p env sdev bus fb).sdev.vcom_timer_pending
      = sdev.vcom_timer_pending := by
  unfold sharp_drm_update_display
  repeat' split
  all_goals first | exact ⟨rfl, rfl⟩ | (simp only []; repeat' split) <;> exact ⟨rfl, rfl⟩

/-- A VCOM toggle leaves the VCOM timer alone. -/
theorem toggle_vcom_timer (env : Env) (sdev : sharp_drm_device) (bus : Bus) :
    (sharp_drm_toggle_vcom env sdev bus).sdev.vcom_timer_pending = sdev.vcom_timer_pending := by
  unfold sharp_drm_toggle_vcom
  cases hg : sdev.vcom_gpio <;> simp only [] <;> split <;> simp

/-- Every call keeps the VCOM timer matched with the power state. -/
theorem apply_call_timer (p : Params) (st : sharp_drm_device × Bus) (c : Env × driver_call)
    (h : timer_matches_state st.1) : timer_matches_state (apply_call p st c).1 := by
  obtain ⟨env, call⟩ := c
  cases call with
  | power_on =>
    simp only [apply_call, timer_matches_state]
    rcases power_on_timer p env st.1 st.2 with ⟨h1, h2⟩ | ⟨h1, h2⟩
    · rw [h1, h2]; simp
    · rw [h1, h2]; exact h
  | power_off => exact power_off_timer p env st.1 st.2 h
  | standby => exact power_standby_timer st.1 st.2 h
  | resume => exact power_resume_timer p st.1 st.2 h
  | update_activity => exact update_activity_timer p env st.1 st.2 h
  | update fb =>
    have hu := update_display_timer p env st.1 st.2 fb
    simp only [apply_call, timer_matches_state, hu.1, hu.2]
    exact h
  | clear => exact h
  | toggle_vcom =>
    simp only [apply_call, timer_matches_state, toggle_vcom_timer, toggle_vcom_power_state]
    exact h

/-- Every sequence of calls keeps the VCOM timer matched with the power state. -/
theorem run_calls_timer (p : Params) (cs : List (Env × driver_call)) :
    ∀ st : sharp_drm_device × Bus, timer_matches_state st.1 →
      timer_matches_state (run_calls p st cs).1 := by
  induction cs with
  | nil => intro st h; exact h
  | cons c cs ih =>
    intro st h
    simp only [run_calls, List.foldl_cons]
    exact ih (apply_call p st c) (apply_call_timer p st c h)

/-- C27. With the VCOM timer modelled as an armed/not-armed flag (armed by
mod_timer, disarmed by del_timer/del_timer_sync) and starting from state OFF
with the timer not armed: after every finite sequence of power_on (succeeding or
failing, as the environment of each call decides), power_off, standby, resume
and activity notifications (and of update, clear and VCOM-toggle calls as
well), the VCOM timer is armed if and only if the power state is ON. -/
theorem vcom_timer_armed_iff_on (p : Params) (sdev : sharp_drm_device) (bus : Bus)
    (cs : List (Env × driver_call))
    (hoff : sdev.power_state = SHARP_POWER_OFF) (htimer : sdev.vcom_timer_pending = false) :
    ((run_calls p (sdev, bus) cs).1.vcom_timer_pending = true
      ↔ (run_calls p (sdev, bus) cs).1.power_state = SHARP_POWER_ON) := by
  have h0 : timer_matches_state sdev := by
    simp [timer_matches_state, hoff, htimer]
  exact run_calls_timer p cs (sdev, bus) h0

/-- C27 witness: a failing power_on, a successful one, standby, an activity
notification and power_off, from a device that is OFF with the timer not armed. -/
theorem vcom_timer_armed_iff_on_witness :
    ((run_calls { mono_cutoff := 127, mono_invert := false }
        ({ width := 400, height := 240, power_state := SHARP_POWER_OFF, vcom_state := false,
           frame_count := 0, vcom_gpio := none, backlit_gpio := none, backlight_on := false,
           vdd_supply := some 0, vddio_supply := some 0 }, ⟨[]⟩)
        [({ spi_ret := fun _ => 0, kzalloc_ok := true, vddio_enable_ret := -5 },
            driver_call.power_on),
         ({ spi_ret := fun _ => 0, kzalloc_ok := true }, driver_call.power_on),
         ({ spi_ret := fun _ => 0, kzalloc_ok := true }, driver_call.standby),
         ({ spi_ret := fun _ => 0, kzalloc_ok := true }, driver_call.update_activity),
         ({ spi_ret := fun _ => 0, kzalloc_ok := true },
            driver_call.power_off)]).1.vcom_timer_pending = true
      ↔ (run_calls { mono_cutoff := 127, mono_invert := false }
        ({ width := 400, height := 240, power_state := SHARP_POWER_OFF, vcom_state := false,
           frame_count := 0, vcom_gpio := none, backlit_gpio := none, backlight_on := false,
           vdd_supply := some 0, vddio_supply := some 0 }, ⟨[]⟩)
        [({ spi_ret := fun _ => 0, kzalloc_ok := true, vddio_enable_ret := -5 },
            driver_call.power_on),
         ({ spi_ret := fun _ => 0, kzalloc_ok := true }, driver_call.power_on),
         ({ spi_ret := fun _ => 0, kzalloc_ok := true }, driver_call.standby),
         ({ spi_ret := fun _ => 0, kzalloc_ok := true }, driver_call.update_activity),
         ({ spi_ret := fun _ => 0, kzalloc_ok := true },
            driver_call.power_off)]).1.power_state = SHARP_POWER_ON) :=
  vcom_timer_armed_iff_on { mono_cutoff := 127, mono_invert := false }
    { width := 400, height := 240, power_state := SHARP_POWER_OFF, vcom_state := false,
      frame_count := 0, vcom_gpio := none, backlit_gpio := none, backlight_on := false,
      vdd_supply := some 0, vddio_supply := some 0 }
    ⟨[]⟩
    [({ spi_ret := fun _ => 0, kzalloc_ok := true, vddio_enable_ret := -5 },
        driver_call.power_on),
     ({ spi_ret := fun _ => 0, kzalloc_ok := true }, driver_call.power_on),
     ({ spi_ret := fun _ => 0, kzalloc_ok := true }, driver_call.standby),
     ({ spi_ret := fun _ => 0, kzalloc_ok := true }, driver_call.update_activity),
     ({ spi_ret := fun _ => 0, kzalloc_ok := true }, driver_call.power_off)]
    rfl rfl

/-! ## Enable counts of the power rails -/

/-- A power-on from the balanced OFF state, with both calls of regulator_enable
succeeding, ends in the balanced ON state. -/
theorem power_on_balanced (p : Params) (env : Env) (sdev : sharp_drm_device) (bus : Bus)
    (hs : sdev.power_state = SHARP_POWER_OFF) (hvdd : sdev.vdd_supply = some 0)
    (hvddio : sdev.vddio_supply = some 0) (h1 : env.vdd_enable_ret = 0)
    (h2 : env.vddio_enable_ret = 0) :
    rails_balanced (sharp_drm_power_on p env sdev bus).sdev := by
  have hne : ¬ (sdev.power_state = SHARP_POWER_ON) := by rw [hs]; decide
  refine Or.inr ?_
  simp only [sharp_drm_power_on, hne, if_false, hvdd, hvddio, h1, h2, regulator_enable,
    ne_eq, not_true_eq_false, if_true, Option.map_some', Int.zero_add]
  repeat' split
  all_goals simp [gpiod_set_value, mod_timer, del_timer, hvdd, hvddio]

/-- A power-off from the balanced ON state ends in the balanced OFF state. -/
theorem power_off_balanced (p : Params) (env : Env) (sdev : sharp_drm_device) (bus : Bus)
    (h : rails_balanced sdev) : rails_balanced (sharp_drm_power_off p env sdev bus).sdev := by
  rcases h with ⟨hs, hvdd, hvddio⟩ | ⟨hs, hvdd, hvddio⟩
  · have : sharp_drm_power_off p env sdev bus = ⟨sdev, bus, some 0⟩ := by
      simp [sharp_drm_power_off, hs]
    rw [this]
    exact Or.inl ⟨hs, hvdd, hvddio⟩
  · have hne : ¬ (sdev.power_state = SHARP_POWER_OFF) := by rw [hs]; decide
    refine Or.inl ?_
    cases hb : sdev.backlit_gpio <;> cases hd : sdev.disp_gpio <;>
      cases hr : sdev.reset_gpio <;>
      simp [sharp_drm_power_off, hne, del_timer, gpiod_set_value, regulator_disable,
        hb, hd, hr, hvdd, hvddio]

/-- Without standby calls the rails stay balanced: from a balanced device, every
sequence of power_on (with every regulator_enable succeeding), power_off and
resume calls ends in a balanced device. -/
theorem run_calls_balanced (p : Params) (cs : List (Env × driver_call)) :
    ∀ st : sharp_drm_device × Bus, rails_balanced st.1 →
      (∀ c, c ∈ cs →
        (c.2 = driver_call.power_on ∧ c.1.vdd_enable_ret = 0 ∧ c.1.vddio_enable_ret = 0) ∨
        c.2 = driver_call.power_off ∨ c.2 = driver_call.resume) →
      rails_balanced (run_calls p st cs).1 := by
  induction cs with
  | nil => intro st h _; exact h
  | cons c cs ih =>
    intro st h hall
    simp only [run_calls, List.foldl_cons]
    refine ih (apply_call p st c) ?_ (fun d hd => hall d (List.mem_cons_of_mem c hd))
    obtain ⟨env, call⟩ := c
    rcases hall (env, call) (List.mem_cons_self _ cs) with ⟨hc, h1, h2⟩ | hc | hc
    · simp only [] at hc h1 h2
      subst hc
      simp only [apply_call]
      rcases h with ⟨hs, hvdd, hvddio⟩ | ⟨hs, hvdd, hvddio⟩
      · exact power_on_balanced p env st.1 st.2 hs hvdd hvddio h1 h2
      · have : sharp_drm_power_on p env st.1 st.2 = ⟨st.1, st.2, some 0⟩ := by
          simp [sharp_drm_power_on, hs]
        rw [this]
        exact Or.inr ⟨hs, hvdd, hvddio⟩
    · simp only [] at hc
      subst hc
      exact power_off_balanced p env st.1 st.2 h
    · simp only [] at hc
      subst hc
      have hne : st.1.power_state ≠ SHARP_POWER_STANDBY := by
        rcases h with ⟨hs, _, _⟩ | ⟨hs, _, _⟩ <;> rw [hs] <;> decide
      have : sharp_drm_power_resume p st.1 st.2 = ⟨st.1, st.2, some 0⟩ := by
        simp [sharp_drm_power_resume, hne]
      simp only [apply_call, this]
      exact h

/-- C28 at the failing inputs. From state OFF with both enable counts 0 and
every regulator_enable succeeding: power_on, standby, power_on leaves both
counts at 2, and a power_off after that ends in state OFF with both counts at 1;
standby, power_off ends in state OFF with both counts at -1. -/
theorem rail_counts_unbalanced :
    ((run_calls { mono_cutoff := 127, mono_invert := false }
        ({ width := 400, height := 240, power_state := SHARP_POWER_OFF, vcom_state := false,
           frame_count := 0, vcom_gpio := none, backlit_gpio := none, backlight_on := false,
           vdd_supply := some 0, vddio_supply := some 0 }, ⟨[]⟩)
        [({ spi_ret := fun _ => 0, kzalloc_ok := true }, driver_call.power_on),
         ({ spi_ret := fun _ => 0, kzalloc_ok := true }, driver_call.standby),
         ({ spi_ret := fun _ => 0, kzalloc_ok := true }, driver_call.power_on)]).1.vdd_supply
      = some 2) ∧
    ((run_calls { mono_cutoff := 127, mono_invert := false }
        ({ width := 400, height := 240, power_state := SHARP_POWER_OFF, vcom_state := false,
           frame_count := 0, vcom_gpio := none, backlit_gpio := none, backlight_on := false,
           vdd_supply := some 0, vddio_supply := some 0 }, ⟨[]⟩)
        [({ spi_ret := fun _ => 0, kzalloc_ok := true }, driver_call.power_on),
         ({ spi_ret := fun _ => 0, kzalloc_ok := true }, driver_call.standby),
         ({ spi_ret := fun _ => 0, kzalloc_ok := true }, driver_call.power_on)]).1.vddio_supply
      = some 2) ∧
    ((fun s : sharp_drm_device => (s.power_state, s.vdd_supply, s.vddio_supply))
      (run_calls { mono_cutoff := 127, mono_invert := false }
        ({ width := 400, height := 240, power_state := SHARP_POWER_OFF, vcom_state := false,
           frame_count := 0, vcom_gpio := none, backlit_gpio := none, backlight_on := false,
           vdd_supply := some 0, vddio_supply := some 0 }, ⟨[]⟩)
        [({ spi_ret := fun _ => 0, kzalloc_ok := true }, driver_call.power_on),
         ({ spi_ret := fun _ => 0, kzalloc_ok := true }, driver_call.standby),
         ({ spi_ret := fun _ => 0, kzalloc_ok := true }, driver_call.power_on),
         ({ spi_ret := fun _ => 0, kzalloc_ok := true }, driver_call.power_off)]).1
      = (SHARP_POWER_OFF, some 1, some 1)) ∧
    ((fun s : sharp_drm_device => (s.power_state, s.vdd_supply, s.vddio_supply))
      (run_calls { mono_cutoff := 127, mono_invert := false }
        ({ width := 400, height := 240, power_state := SHARP_POWER_OFF, vcom_state := false,
           frame_count := 0, vcom_gpio := none, backlit_gpio := none, backlight_on := false,
           vdd_supply := some 0, vddio_supply := some 0 }, ⟨[]⟩)
        [({ spi_ret := fun _ => 0, kzalloc_ok := true }, driver_call.standby),
         ({ spi_ret := fun _ => 0, kzalloc_ok := true }, driver_call.power_off)]).1
      = (SHARP_POWER_OFF, some (-1), some (-1))) := by
  decide

end SharpDrm
